import Mathlib

/-!
APDS9900 driver: a verification development.

A shallow embedding of `APDS9900.cpp` (RobTillaart/APDS9900 0.1.0): the register
transaction primitives, the timing encoders and decoders, the threshold and
persistence setters, and the power state operations, over a model of the
two-wire bus the driver talks to.

Conventions.
* `uint8_t` / `uint16_t` values are `Nat`, truncated with `% 256` / `% 65536`
  where the C++ converts; `int` values are `Int`.
* A member function `T f(args)` becomes `f (self) (args) : T × APDS9900 σ`
  (or just the new state when `T` is `void`).
* The products `milliseconds * 0.367647`, `milliseconds * 0.03125` and
  `(256 - value) * 2.72` are taken in exact rational arithmetic.  No 16-bit
  `milliseconds` puts `milliseconds * 0.367647` on a rounding boundary (the
  fractional part is a multiple of `10^-6` other than one half), multiples of
  `0.03125` are exact in binary, and `(256 - value) * 2.72` stays `0.02` away
  from every boundary, so the exact product rounds to the same integer as the
  binary32 or binary64 product the device computes.
-/

namespace Arduino

/-- Arduino `round(x)`: the nearest integer, halves away from zero
(`(x) >= 0 ? (long)((x) + 0.5) : (long)((x) - 0.5)`). -/
def round (x : ℚ) : Int :=
  if 0 ≤ x then ⌊x + 1 / 2⌋ else ⌈x - 1 / 2⌉

/-- One completed transaction on the two-wire bus, as seen by an observer. -/
inductive BusEvent where
  | transmission (address : Nat) (bytes : List Nat) (status : Int)
  | request (address : Nat) (quantity : Nat) (received : List Nat)
deriving DecidableEq, Repr

/-- The far end of the bus: how it answers a finished transmission (a status
code, `0` for success) and a read request (the bytes it offers). -/
structure Peripheral (σ : Type) where
  endTransmission : σ → Nat → List Nat → Int × σ
  requestFrom : σ → Nat → Nat → List Nat × σ

/-- The bus handle (`TwoWire`): the peripheral behind it and its state, the
transmit and receive buffers, and the record of completed transactions. -/
structure TwoWire (σ : Type) where
  port : Peripheral σ
  peripheral : σ
  txAddress : Nat
  txBuffer : List Nat
  rxBuffer : List Nat
  log : List BusEvent

namespace TwoWire

variable {σ : Type}

/-- `beginTransmission(address)`: start queueing bytes for `address`. -/
def beginTransmission (w : TwoWire σ) (address : Nat) : TwoWire σ :=
  { w with txAddress := address, txBuffer := [] }

/-- `write(byte)`: queue one byte. -/
def write (w : TwoWire σ) (byte : Nat) : TwoWire σ :=
  { w with txBuffer := w.txBuffer ++ [byte % 256] }

/-- `endTransmission()`: send the queued bytes, return the status code. -/
def endTransmission (w : TwoWire σ) : Int × TwoWire σ :=
  let r := w.port.endTransmission w.peripheral w.txAddress w.txBuffer
  (r.1, { w with
    peripheral := r.2
    txBuffer := []
    log := w.log ++ [BusEvent.transmission w.txAddress w.txBuffer r.1] })

/-- `requestFrom(address, quantity)`: clock in at most `quantity` bytes, each
of 8 bits, and return how many were received. -/
def requestFrom (w : TwoWire σ) (address quantity : Nat) : Nat × TwoWire σ :=
  let r := w.port.requestFrom w.peripheral address quantity
  let received := (r.1.take quantity).map (fun b => b % 256)
  (received.length, { w with
    peripheral := r.2
    rxBuffer := received
    log := w.log ++ [BusEvent.request address quantity received] })

/-- `read()`: the next received byte, or `-1` when there is none. -/
def read (w : TwoWire σ) : Int × TwoWire σ :=
  match w.rxBuffer with
  | [] => (-1, w)
  | b :: rest => ((b : Int), { w with rxBuffer := rest })

end TwoWire

end Arduino

open Arduino

/-! ## Registers -/

def APDS9900_ENABLE : Nat := 0x00
def APDS9900_ATIME : Nat := 0x01
def APDS9900_PTIME : Nat := 0x02
def APDS9900_WTIME : Nat := 0x03
def APDS9900_AILTL : Nat := 0x04
def APDS9900_AIHTL : Nat := 0x06
def APDS9900_PILTL : Nat := 0x08
def APDS9900_PIHTL : Nat := 0x0A
def APDS9900_PERS : Nat := 0x0C
def APDS9900_CONFIG : Nat := 0x0D
def APDS9900_PPCOUNT : Nat := 0x0E
def APDS9900_CONTROL : Nat := 0x0F
def APDS9900_REV : Nat := 0x11
def APDS9900_ID : Nat := 0x12
def APDS9900_STATUS : Nat := 0x13
def APDS9900_CDATAL : Nat := 0x14
def APDS9900_IRDATAL : Nat := 0x16
def APDS9900_PDATAL : Nat := 0x18

/-- The driver object: `uint8_t _address; TwoWire * _wire; int _error;`.
The bus behind the pointer is carried in the state. -/
structure APDS9900 (σ : Type) where
  _address : Nat
  _wire : TwoWire σ
  _error : Int

namespace APDS9900

variable {σ : Type}

/-- Constructor `APDS9900::APDS9900(TwoWire *wire)`: stores the bus and clears
the error.  It does not assign `_address`; `indeterminate` stands for whatever
the uninitialised byte holds. -/
def init (wire : TwoWire σ) (indeterminate : Nat) : APDS9900 σ :=
  { _address := indeterminate % 256, _wire := wire, _error := 0 }

/-! ### Register transaction primitives -/

/-- Overload `int writeRegister(uint8_t reg)`. -/
def writeRegister (self : APDS9900 σ) (reg : Nat) : Int × APDS9900 σ :=
  let w := self._wire.beginTransmission self._address
  let w := w.write reg
  let r := w.endTransmission
  (r.1, { self with _wire := r.2, _error := r.1 })

/-- Overload `int writeRegister(uint8_t reg, uint8_t value)`. -/
def writeRegister8 (self : APDS9900 σ) (reg value : Nat) : Int × APDS9900 σ :=
  let w := self._wire.beginTransmission self._address
  let w := w.write reg
  let w := w.write value
  let r := w.endTransmission
  (r.1, { self with _wire := r.2, _error := r.1 })

/-- Function `int writeRegister16(uint8_t reg, uint16_t value)`. -/
def writeRegister16 (self : APDS9900 σ) (reg value : Nat) : Int × APDS9900 σ :=
  let value := value % 65536
  let w := self._wire.beginTransmission self._address
  let w := w.write reg
  let w := w.write (value &&& 0xFF)
  let w := w.write (value >>> 8)
  let r := w.endTransmission
  (r.1, { self with _wire := r.2, _error := r.1 })

/-- Function `uint8_t readRegister(uint8_t reg)`. -/
def readRegister (self : APDS9900 σ) (reg : Nat) : Nat × APDS9900 σ :=
  let w := self._wire.beginTransmission self._address
  let w := w.write reg
  let r := w.endTransmission
  let q := r.2.requestFrom self._address 1
  if q.1 = 1 then
    let b := q.2.read
    ((b.1 % 256).toNat, { self with _wire := b.2, _error := r.1 })
  else
    --  ERROR HANDLING
    (0, { self with _wire := q.2, _error := r.1 })

/-- Function `uint16_t readRegister16(uint8_t reg)`. -/
def readRegister16 (self : APDS9900 σ) (reg : Nat) : Nat × APDS9900 σ :=
  let w := self._wire.beginTransmission self._address
  let w := w.write reg
  let r := w.endTransmission
  let q := r.2.requestFrom self._address 2
  if q.1 = 2 then
    let b0 := q.2.read
    let value := (b0.1 % 65536).toNat
    let b1 := b0.2.read
    let value := (((value : Int) + b1.1 * 256) % 65536).toNat
    (value, { self with _wire := b1.2, _error := r.1 })
  else
    --  ERROR HANDLING
    (0, { self with _wire := q.2, _error := r.1 })

/-! ### Connectivity -/

/-- Function `bool isConnected()`. -/
def isConnected (self : APDS9900 σ) : Bool × APDS9900 σ :=
  let w := self._wire.beginTransmission self._address
  let r := w.endTransmission
  (r.1 == 0, { self with _wire := r.2 })

/-- Function `bool begin()`. -/
def begin (self : APDS9900 σ) : Bool × APDS9900 σ :=
  let c := self.isConnected
  if !c.1 then
    (false, c.2)
  else
    let cmd := 0x80          --  address the COMMAND register
    let cmd := cmd ||| 0x20  --  auto increment protocol
    (true, (c.2.writeRegister cmd).2)

/-- Function `uint8_t getAddress()`. -/
def getAddress (self : APDS9900 σ) : Nat × APDS9900 σ :=
  (self._address, self)

/-- Function `int getLastError()`. -/
def getLastError (self : APDS9900 σ) : Int × APDS9900 σ :=
  let e := self._error
  (e, { self with _error := 0 })

/-! ### Power state -/

/-- Function `void wakeUp()`. -/
def wakeUp (self : APDS9900 σ) : APDS9900 σ :=
  let r := self.readRegister APDS9900_ENABLE
  let value := r.1
  if value &&& 0x01 = 0x00 then
    let value := (value ||| 0x01) % 256
    (r.2.writeRegister8 APDS9900_ENABLE value).2
  else
    r.2

/-- Function `void sleep()`; `~0x01` on the promoted byte keeps bits 1..7. -/
def sleep (self : APDS9900 σ) : APDS9900 σ :=
  let r := self.readRegister APDS9900_ENABLE
  let value := r.1 &&& 0xFE
  (r.2.writeRegister8 APDS9900_ENABLE value).2

/-! ### Timing -/

/-- Function `void setIntegrationTime(uint16_t milliseconds)`. -/
def setIntegrationTime (self : APDS9900 σ) (milliseconds : Nat) : APDS9900 σ :=
  let milliseconds := if milliseconds < 3 then 3 else milliseconds
  let ATIME := (Arduino.round ((milliseconds : ℚ) * 0.367647) % 65536).toNat
  let ATIME := if ATIME > 255 then 255 else ATIME
  let ATIME := (256 - ATIME) % 65536
  (self.writeRegister8 APDS9900_ATIME ATIME).2

/-- Function `uint16_t getIntegrationTime()`. -/
def getIntegrationTime (self : APDS9900 σ) : Nat × APDS9900 σ :=
  let r := self.readRegister APDS9900_ATIME
  let value := r.1
  let ms := (Arduino.round ((((256 : Int) - value : Int) : ℚ) * 2.72) % 65536).toNat
  (ms, r.2)

/-- Function `void setProximityTime(uint16_t milliseconds)`. -/
def setProximityTime (self : APDS9900 σ) (milliseconds : Nat) : APDS9900 σ :=
  let milliseconds := if milliseconds < 3 then 3 else milliseconds
  let PTIME := (Arduino.round ((milliseconds : ℚ) * 0.367647) % 65536).toNat
  let PTIME := if PTIME > 255 then 255 else PTIME
  let PTIME := (256 - PTIME) % 65536
  (self.writeRegister8 APDS9900_PTIME PTIME).2

/-- Function `uint16_t getProximityTime()`. -/
def getProximityTime (self : APDS9900 σ) : Nat × APDS9900 σ :=
  let r := self.readRegister APDS9900_PTIME
  let value := r.1
  let ms := (Arduino.round ((((256 : Int) - value : Int) : ℚ) * 2.72) % 65536).toNat
  (ms, r.2)

/-- Function `void setWaitTime(uint16_t milliseconds)`. -/
def setWaitTime (self : APDS9900 σ) (milliseconds : Nat) : APDS9900 σ :=
  let WLONG := decide (milliseconds > 696)
  --  first set WLONG register
  let self := (self.writeRegister8 APDS9900_CONFIG (if WLONG then 0x02 else 0x00)).2
  let WTIME :=
    if WLONG then
      (Arduino.round ((milliseconds : ℚ) * 0.03125) % 65536).toNat
    else
      let milliseconds := if milliseconds < 3 then 3 else milliseconds
      (Arduino.round ((milliseconds : ℚ) * 0.367647) % 65536).toNat
  let WTIME := if WTIME > 255 then 255 else WTIME
  let WTIME := (256 - WTIME) % 65536
  (self.writeRegister8 APDS9900_WTIME WTIME).2

/-- Function `uint16_t getWaitTime()`. -/
def getWaitTime (self : APDS9900 σ) : Nat × APDS9900 σ :=
  let c := self.readRegister APDS9900_CONFIG
  let WLONG := decide (c.1 &&& 0x02 = 0x02)
  let r := c.2.readRegister APDS9900_WTIME
  let value := r.1
  if WLONG then
    ((Arduino.round ((((256 : Int) - value) * 32 : Int) : ℚ) % 65536).toNat, r.2)
  else
    ((Arduino.round ((((256 : Int) - value : Int) : ℚ) * 2.72) % 65536).toNat, r.2)

/-! ### Interrupt thresholds and persistence -/

/-- Function `bool setALSThresholds(uint16_t lowTH, uint16_t highTH)`. -/
def setALSThresholds (self : APDS9900 σ) (lowTH highTH : Nat) : Bool × APDS9900 σ :=
  if lowTH ≥ highTH then (false, self)
  else
    let self := (self.writeRegister16 APDS9900_AILTL lowTH).2
    let self := (self.writeRegister16 APDS9900_AIHTL highTH).2
    (true, self)

/-- Function `bool setPROXThresholds(uint16_t lowTH, uint16_t highTH)`. -/
def setPROXThresholds (self : APDS9900 σ) (lowTH highTH : Nat) : Bool × APDS9900 σ :=
  if lowTH ≥ highTH then (false, self)
  else
    let self := (self.writeRegister16 APDS9900_PILTL lowTH).2
    let self := (self.writeRegister16 APDS9900_PIHTL highTH).2
    (true, self)

/-- Function `bool setALSInterruptPersistence(uint8_t value)`. -/
def setALSInterruptPersistence (self : APDS9900 σ) (value : Nat) : Bool × APDS9900 σ :=
  if value > 0x0F then (false, self)
  else
    let r := self.readRegister APDS9900_PERS
    let val := r.1
    if val &&& 0x0F ≠ value then
      let val := val &&& 0xF0
      let val := (val ||| value) % 256
      (true, (r.2.writeRegister8 APDS9900_PERS val).2)
    else
      (true, r.2)

/-- Function `bool setPROXInterruptPersistence(uint8_t value)`. -/
def setPROXInterruptPersistence (self : APDS9900 σ) (value : Nat) : Bool × APDS9900 σ :=
  if value > 0x0F then (false, self)
  else
    let r := self.readRegister APDS9900_PERS
    let val := r.1
    let tmp := (value <<< 4) % 256
    if val &&& 0xF0 ≠ tmp then
      let val := val &&& 0x0F
      let val := (val ||| tmp) % 256
      (true, (r.2.writeRegister8 APDS9900_PERS val).2)
    else
      (true, r.2)

/-! ### Pulse count and control register -/

/-- Function `void setProximityPulseCount(uint8_t value)`. -/
def setProximityPulseCount (self : APDS9900 σ) (value : Nat) : APDS9900 σ :=
  (self.writeRegister8 APDS9900_PPCOUNT value).2

/-- Function `bool setLedDriveStrength(uint8_t value)`. -/
def setLedDriveStrength (self : APDS9900 σ) (value : Nat) : Bool × APDS9900 σ :=
  if value > 3 then (false, self)
  else
    let r := self.readRegister APDS9900_CONTROL
    let val := r.1
    let val := val &&& 0x3F
    let val := (val ||| (value <<< 6)) % 256
    (true, (r.2.writeRegister8 APDS9900_CONTROL val).2)

/-- Function `bool setProximityDiodeSelect(uint8_t channel)`. -/
def setProximityDiodeSelect (self : APDS9900 σ) (channel : Nat) : Bool × APDS9900 σ :=
  if channel > 1 then (false, self)
  else
    let r := self.readRegister APDS9900_CONTROL
    let val := r.1
    let val := val &&& 0x3F
    let val := (val ||| (channel <<< 6)) % 256
    (true, (r.2.writeRegister8 APDS9900_CONTROL val).2)

/-- Function `bool setALSGainControl(uint8_t value)`. -/
def setALSGainControl (self : APDS9900 σ) (value : Nat) : Bool × APDS9900 σ :=
  if value > 3 then (false, self)
  else
    let r := self.readRegister APDS9900_CONTROL
    let val := r.1
    let val := val &&& 0xFC
    let val := (val ||| value) % 256
    (true, (r.2.writeRegister8 APDS9900_CONTROL val).2)

/-! ### Identity, status and raw data -/

/-- Function `uint8_t getRevision()`. -/
def getRevision (self : APDS9900 σ) : Nat × APDS9900 σ :=
  self.readRegister APDS9900_REV

/-- Function `uint8_t getDeviceID()`. -/
def getDeviceID (self : APDS9900 σ) : Nat × APDS9900 σ :=
  self.readRegister APDS9900_ID

/-- Function `uint8_t getStatus()`. -/
def getStatus (self : APDS9900 σ) : Nat × APDS9900 σ :=
  self.readRegister APDS9900_STATUS

/-- Function `uint16_t getALS_CDATA()`. -/
def getALS_CDATA (self : APDS9900 σ) : Nat × APDS9900 σ :=
  self.readRegister16 APDS9900_CDATAL

/-- Function `uint16_t getALS_IRDATA()`. -/
def getALS_IRDATA (self : APDS9900 σ) : Nat × APDS9900 σ :=
  self.readRegister16 APDS9900_IRDATAL

/-- Function `uint16_t getPROX_DATA()`. -/
def getPROX_DATA (self : APDS9900 σ) : Nat × APDS9900 σ :=
  self.readRegister16 APDS9900_PDATAL

end APDS9900

/-! ## A simulated register file

The test double the register-level properties are stated against: a byte
array addressed by the first byte of a transmission, with every transaction
succeeding. -/

/-- The simulated device: its registers and the register the last
transmission addressed. -/
structure RegisterFile where
  regs : Nat → Nat
  pointer : Nat

namespace RegisterFile

/-- Store the payload bytes in consecutive registers starting at `reg`. -/
def store (regs : Nat → Nat) (reg : Nat) : List Nat → Nat → Nat
  | [] => regs
  | b :: bs => store (fun r => if r = reg then b else regs r) (reg + 1) bs

/-- The register file as a bus peripheral: a transmission selects the register
named by its first byte and stores the rest there; a request delivers the
selected register and its successors.  Every transmission reports status 0 and
every request delivers the quantity asked for. -/
def port : Peripheral RegisterFile where
  endTransmission s _ bytes :=
    match bytes with
    | [] => (0, s)
    | reg :: payload => (0, { regs := store s.regs reg payload, pointer := reg })
  requestFrom s _ quantity :=
    ((List.range quantity).map (fun i => s.regs (s.pointer + i)), s)

/-- A bus with the register file behind it and nothing in flight. -/
def bus (regs : Nat → Nat) : TwoWire RegisterFile :=
  { port := port, peripheral := { regs := regs, pointer := 0 },
    txAddress := 0, txBuffer := [], rxBuffer := [], log := [] }

end RegisterFile

/-- The register contents behind a driver attached to a register file. -/
def APDS9900.registers (self : APDS9900 RegisterFile) : Nat → Nat :=
  self._wire.peripheral.regs

/-! ## A bus that delivers short reads -/

/-- A peripheral that acknowledges every transmission with status 0 and then
delivers one byte fewer than requested (each byte 0x55). -/
def shortReadPort : Peripheral Unit where
  endTransmission s _ _ := (0, s)
  requestFrom s _ quantity := (List.replicate (quantity - 1) 0x55, s)

/-- A driver freshly constructed on the short-reading bus. -/
def APDS9900.onShortReads : APDS9900 Unit :=
  APDS9900.init
    { port := shortReadPort, peripheral := (), txAddress := 0, txBuffer := [],
      rxBuffer := [], log := [] }
    0x39

/-! ## Call sequences -/

/-- The device address a bus transaction was directed to. -/
def Arduino.BusEvent.address : BusEvent → Nat
  | .transmission a _ _ => a
  | .request a _ _ => a

/-- The public operations of the driver, with their arguments. -/
inductive APDS9900.Op where
  | begin | isConnected | getAddress | wakeUp | sleep
  | setIntegrationTime (milliseconds : Nat) | getIntegrationTime
  | setProximityTime (milliseconds : Nat) | getProximityTime
  | setWaitTime (milliseconds : Nat) | getWaitTime
  | setALSThresholds (lowTH highTH : Nat) | setPROXThresholds (lowTH highTH : Nat)
  | setALSInterruptPersistence (value : Nat) | setPROXInterruptPersistence (value : Nat)
  | setProximityPulseCount (value : Nat)
  | setLedDriveStrength (value : Nat) | setProximityDiodeSelect (channel : Nat)
  | setALSGainControl (value : Nat)
  | getRevision | getDeviceID | getStatus
  | getALS_CDATA | getALS_IRDATA | getPROX_DATA
  | getLastError
  | writeRegister (reg : Nat) | writeRegister8 (reg value : Nat)
  | writeRegister16 (reg value : Nat)
  | readRegister (reg : Nat) | readRegister16 (reg : Nat)
deriving Repr

/-- The device after one public operation (its return value dropped). -/
def APDS9900.step {σ : Type} (self : APDS9900 σ) : APDS9900.Op → APDS9900 σ
  | .begin => self.begin.2
  | .isConnected => self.isConnected.2
  | .getAddress => self.getAddress.2
  | .wakeUp => self.wakeUp
  | .sleep => self.sleep
  | .setIntegrationTime ms => self.setIntegrationTime ms
  | .getIntegrationTime => self.getIntegrationTime.2
  | .setProximityTime ms => self.setProximityTime ms
  | .getProximityTime => self.getProximityTime.2
  | .setWaitTime ms => self.setWaitTime ms
  | .getWaitTime => self.getWaitTime.2
  | .setALSThresholds lo hi => (self.setALSThresholds lo hi).2
  | .setPROXThresholds lo hi => (self.setPROXThresholds lo hi).2
  | .setALSInterruptPersistence v => (self.setALSInterruptPersistence v).2
  | .setPROXInterruptPersistence v => (self.setPROXInterruptPersistence v).2
  | .setProximityPulseCount v => self.setProximityPulseCount v
  | .setLedDriveStrength v => (self.setLedDriveStrength v).2
  | .setProximityDiodeSelect ch => (self.setProximityDiodeSelect ch).2
  | .setALSGainControl v => (self.setALSGainControl v).2
  | .getRevision => self.getRevision.2
  | .getDeviceID => self.getDeviceID.2
  | .getStatus => self.getStatus.2
  | .getALS_CDATA => self.getALS_CDATA.2
  | .getALS_IRDATA => self.getALS_IRDATA.2
  | .getPROX_DATA => self.getPROX_DATA.2
  | .getLastError => self.getLastError.2
  | .writeRegister reg => (self.writeRegister reg).2
  | .writeRegister8 reg v => (self.writeRegister8 reg v).2
  | .writeRegister16 reg v => (self.writeRegister16 reg v).2
  | .readRegister reg => (self.readRegister reg).2
  | .readRegister16 reg => (self.readRegister16 reg).2

/-- The device after a sequence of public operations. -/
def APDS9900.run {σ : Type} (self : APDS9900 σ) : List APDS9900.Op → APDS9900 σ
  | [] => self
  | op :: ops => (self.step op).run ops

/-- Device `t` is device `s` some transactions later: the same address, and a
log that extends the log of `s` by transactions directed to that address. -/
def APDS9900.Follows {σ : Type} (s t : APDS9900 σ) : Prop :=
  t._address = s._address ∧
  ∃ evs, t._wire.log = s._wire.log ++ evs ∧ ∀ ev ∈ evs, ev.address = s._address

/-- A driver freshly constructed on a register file holding `regs`. -/
def APDS9900.onRegisters (regs : Nat → Nat) : APDS9900 RegisterFile :=
  APDS9900.init (RegisterFile.bus regs) 0x39

/-! ## Rounding in integer arithmetic -/

theorem Arduino.round_natCast_div (a b : Nat) (hb : 0 < b) :
    Arduino.round ((a : ℚ) / b) = (((2 * a + b) / (2 * b) : Nat) : Int) := by
  have hbq : (0 : ℚ) < b := by exact_mod_cast hb
  have h0 : (0 : ℚ) ≤ (a : ℚ) / b := by positivity
  have e : (a : ℚ) / b + 1 / 2 = (((2 * a + b : Nat) : Int) : ℚ) / ((2 * b : Nat) : ℚ) := by
    push_cast
    field_simp
    ring
  rw [Arduino.round, if_pos h0, e, Rat.floor_intCast_div_natCast]
  norm_cast

theorem Arduino.round_steps (ms : Nat) :
    Arduino.round ((ms : ℚ) * 0.367647) = (((ms * 367647 + 500000) / 1000000 : Nat) : Int) := by
  have e : (ms : ℚ) * 0.367647 = ((ms * 367647 : Nat) : ℚ) / ((1000000 : Nat) : ℚ) := by
    push_cast
    ring
  rw [e, Arduino.round_natCast_div _ _ (by norm_num)]
  congr 1
  omega

theorem Arduino.round_long_steps (ms : Nat) :
    Arduino.round ((ms : ℚ) * 0.03125) = (((ms + 16) / 32 : Nat) : Int) := by
  have e : (ms : ℚ) * 0.03125 = ((ms : Nat) : ℚ) / ((32 : Nat) : ℚ) := by
    push_cast
    ring
  rw [e, Arduino.round_natCast_div _ _ (by norm_num)]
  congr 1
  omega

theorem Arduino.round_milliseconds (value : Nat) (h : value ≤ 256) :
    Arduino.round ((((256 : Int) - value : Int) : ℚ) * 2.72)
      = ((((256 - value) * 272 + 50) / 100 : Nat) : Int) := by
  have e : (((256 : Int) - value : Int) : ℚ) * 2.72
      = (((256 - value) * 272 : Nat) : ℚ) / ((100 : Nat) : ℚ) := by
    have : ((256 : Int) - value : Int) = ((256 - value : Nat) : Int) := by omega
    rw [this]
    push_cast
    ring
  rw [e, Arduino.round_natCast_div _ _ (by norm_num)]
  congr 1
  omega

theorem Arduino.round_long_milliseconds (value : Nat) (h : value ≤ 256) :
    Arduino.round ((((256 : Int) - value) * 32 : Int) : ℚ)
      = (((256 - value) * 32 : Nat) : Int) := by
  have e : ((((256 : Int) - value) * 32 : Int) : ℚ)
      = (((256 - value) * 32 : Nat) : ℚ) / ((1 : Nat) : ℚ) := by
    have : (((256 : Int) - value) * 32 : Int) = (((256 - value) * 32 : Nat) : Int) := by omega
    rw [this]
    push_cast
    ring
  rw [e, Arduino.round_natCast_div _ _ (by norm_num)]
  congr 1
  omega

namespace APDS9900

variable {σ : Type}

/-! ## The primitives on any bus -/

@[simp] theorem writeRegister8_port (self : APDS9900 σ) (reg value : Nat) :
    (self.writeRegister8 reg value).2._wire.port = self._wire.port := rfl

@[simp] theorem writeRegister8_address (self : APDS9900 σ) (reg value : Nat) :
    (self.writeRegister8 reg value).2._address = self._address := rfl

@[simp] theorem readRegister_port (self : APDS9900 σ) (reg : Nat) :
    (self.readRegister reg).2._wire.port = self._wire.port := by
  simp only [readRegister, TwoWire.read]
  split_ifs <;> [split <;> rfl; rfl]

@[simp] theorem readRegister_address (self : APDS9900 σ) (reg : Nat) :
    (self.readRegister reg).2._address = self._address := by
  simp only [readRegister]
  split_ifs <;> rfl

theorem writeRegister8_log (self : APDS9900 σ) (reg value : Nat) :
    (self.writeRegister8 reg value).2._wire.log
      = self._wire.log ++
          [BusEvent.transmission self._address [reg % 256, value % 256]
            (self.writeRegister8 reg value).1] := by
  simp [writeRegister8, TwoWire.beginTransmission, TwoWire.write, TwoWire.endTransmission]

theorem readRegister_lt (self : APDS9900 σ) (reg : Nat) : (self.readRegister reg).1 < 256 := by
  simp only [readRegister]
  split_ifs
  · simp only
    omega
  · simp

/-! ## The primitives on the simulated register file -/

theorem writeRegister8_registers (self : APDS9900 RegisterFile)
    (h : self._wire.port = RegisterFile.port) (reg value : Nat) :
    (self.writeRegister8 reg value).2.registers
      = fun r => if r = reg % 256 then value % 256 else self.registers r := by
  simp [writeRegister8, TwoWire.beginTransmission, TwoWire.write, TwoWire.endTransmission,
    h, RegisterFile.port, registers, RegisterFile.store]

theorem writeRegister8_log_registerFile (self : APDS9900 RegisterFile)
    (h : self._wire.port = RegisterFile.port) (reg value : Nat) :
    (self.writeRegister8 reg value).2._wire.log
      = self._wire.log ++ [BusEvent.transmission self._address [reg % 256, value % 256] 0] := by
  simp [writeRegister8, TwoWire.beginTransmission, TwoWire.write, TwoWire.endTransmission,
    h, RegisterFile.port]

theorem readRegister_value (self : APDS9900 RegisterFile)
    (h : self._wire.port = RegisterFile.port) (reg : Nat) :
    (self.readRegister reg).1 = self.registers (reg % 256) % 256 := by
  simp [readRegister, TwoWire.beginTransmission, TwoWire.write, TwoWire.endTransmission,
    TwoWire.requestFrom, TwoWire.read, h, RegisterFile.port, registers, RegisterFile.store,
    List.range_succ]
  omega

theorem readRegister_registers (self : APDS9900 RegisterFile)
    (h : self._wire.port = RegisterFile.port) (reg : Nat) :
    (self.readRegister reg).2.registers = self.registers := by
  simp [readRegister, TwoWire.beginTransmission, TwoWire.write, TwoWire.endTransmission,
    TwoWire.requestFrom, TwoWire.read, h, RegisterFile.port, registers, RegisterFile.store,
    List.range_succ]

theorem readRegister_log (self : APDS9900 RegisterFile)
    (h : self._wire.port = RegisterFile.port) (reg : Nat) :
    (self.readRegister reg).2._wire.log
      = self._wire.log ++
          [BusEvent.transmission self._address [reg % 256] 0,
           BusEvent.request self._address 1 [self.registers (reg % 256) % 256]] := by
  simp [readRegister, TwoWire.beginTransmission, TwoWire.write, TwoWire.endTransmission,
    TwoWire.requestFrom, TwoWire.read, h, RegisterFile.port, registers, RegisterFile.store,
    List.range_succ]

/-! ## Timing -/

/-- The byte `256 - steps` of the 2.72 ms encoders, in integer arithmetic. -/
theorem timing_byte_eq (ms : Nat) (hms : ms < 65536) :
    (256 - (if (Arduino.round ((ms : ℚ) * 0.367647) % 65536).toNat > 255 then 255
            else (Arduino.round ((ms : ℚ) * 0.367647) % 65536).toNat)) % 65536
      = 256 - (if (ms * 367647 + 500000) / 1000000 > 255 then 255
               else (ms * 367647 + 500000) / 1000000) := by
  have hS : (ms * 367647 + 500000) / 1000000 < 65536 := by omega
  rw [Arduino.round_steps]
  generalize (ms * 367647 + 500000) / 1000000 = S at hS ⊢
  have e : ((S : Int) % 65536).toNat = S := by omega
  rw [e]
  split_ifs <;> omega

/-- The byte `256 - steps` of the long-wait encoder, in integer arithmetic. -/
theorem long_timing_byte_eq (ms : Nat) (hms : ms < 65536) :
    (256 - (if (Arduino.round ((ms : ℚ) * 0.03125) % 65536).toNat > 255 then 255
            else (Arduino.round ((ms : ℚ) * 0.03125) % 65536).toNat)) % 65536
      = 256 - (if (ms + 16) / 32 > 255 then 255 else (ms + 16) / 32) := by
  have hS : (ms + 16) / 32 < 65536 := by omega
  rw [Arduino.round_long_steps]
  generalize (ms + 16) / 32 = S at hS ⊢
  have e : ((S : Int) % 65536).toNat = S := by omega
  rw [e]
  split_ifs <;> omega

/-- Decoding the byte `256 - steps` with the 2.72 ms step, for `steps` in `1..255`. -/
theorem decode_byte (T : Nat) (h1 : 1 ≤ T) (h2 : T ≤ 255) :
    (((((256 - (256 - T) % 256 % 256) * 272 + 50) / 100 : Nat) : Int) % 65536).toNat
      = (T * 272 + 50) / 100 := by
  have e1 : (256 - T) % 256 % 256 = 256 - T := by omega
  have e2 : 256 - (256 - T) = T := by omega
  rw [e1, e2]
  have e3 : (T * 272 + 50) / 100 < 65536 := by omega
  generalize (T * 272 + 50) / 100 = X at e3 ⊢
  omega

/-- Decoding the byte `256 - steps` with the 32 ms step, for `steps` in `1..255`. -/
theorem decode_long_byte (T : Nat) (h1 : 1 ≤ T) (h2 : T ≤ 255) :
    ((((256 - (256 - T) % 256 % 256) * 32 : Nat) : Int) % 65536).toNat = T * 32 := by
  have e1 : (256 - T) % 256 % 256 = 256 - T := by omega
  have e2 : 256 - (256 - T) = T := by omega
  rw [e1, e2]
  omega

/-- What `getIntegrationTime` reads back after `setIntegrationTime ms`. -/
theorem setIntegrationTime_getIntegrationTime (self : APDS9900 RegisterFile)
    (h : self._wire.port = RegisterFile.port) (ms : Nat) (hlo : 3 ≤ ms) (hhi : ms < 65536) :
    (self.setIntegrationTime ms).getIntegrationTime.1
      = ((if (ms * 367647 + 500000) / 1000000 > 255 then 255
          else (ms * 367647 + 500000) / 1000000) * 272 + 50) / 100 := by
  have hms : (if ms < 3 then 3 else ms) = ms := by split_ifs <;> omega
  have hS : 1 ≤ (ms * 367647 + 500000) / 1000000 := by omega
  simp only [setIntegrationTime, getIntegrationTime]
  rw [hms, timing_byte_eq ms hhi, Arduino.round_milliseconds _ (readRegister_lt _ _).le,
    readRegister_value _ (by simpa using h), writeRegister8_registers _ h]
  simp only [APDS9900_ATIME]
  generalize (ms * 367647 + 500000) / 1000000 = S at hS ⊢
  simp only [Nat.reduceMod, if_true]
  apply decode_byte <;> split_ifs <;> omega

/-- What `getProximityTime` reads back after `setProximityTime ms`. -/
theorem setProximityTime_getProximityTime (self : APDS9900 RegisterFile)
    (h : self._wire.port = RegisterFile.port) (ms : Nat) (hlo : 3 ≤ ms) (hhi : ms < 65536) :
    (self.setProximityTime ms).getProximityTime.1
      = ((if (ms * 367647 + 500000) / 1000000 > 255 then 255
          else (ms * 367647 + 500000) / 1000000) * 272 + 50) / 100 := by
  have hms : (if ms < 3 then 3 else ms) = ms := by split_ifs <;> omega
  have hS : 1 ≤ (ms * 367647 + 500000) / 1000000 := by omega
  simp only [setProximityTime, getProximityTime]
  rw [hms, timing_byte_eq ms hhi, Arduino.round_milliseconds _ (readRegister_lt _ _).le,
    readRegister_value _ (by simpa using h), writeRegister8_registers _ h]
  simp only [APDS9900_PTIME]
  generalize (ms * 367647 + 500000) / 1000000 = S at hS ⊢
  simp only [Nat.reduceMod, if_true]
  apply decode_byte <;> split_ifs <;> omega

/-- A bound between naturals, read in the rationals. -/
theorem abs_sub_le_of_near (d ms k : Nat) (c : ℚ) (h1 : d ≤ ms + k) (h2 : ms ≤ d + k)
    (hc : (k : ℚ) ≤ c) : |(d : ℚ) - ms| ≤ c := by
  have h1q : (d : ℚ) ≤ ms + k := by exact_mod_cast h1
  have h2q : (ms : ℚ) ≤ d + k := by exact_mod_cast h2
  rw [abs_le]
  constructor <;> linarith

/-- The 2.72 ms round trip stays within two milliseconds on `3..696`. -/
theorem short_round_trip_near (ms : Nat) (hlo : 3 ≤ ms) (hhi : ms ≤ 696) :
    ((if (ms * 367647 + 500000) / 1000000 > 255 then 255
        else (ms * 367647 + 500000) / 1000000) * 272 + 50) / 100 ≤ ms + 2 ∧
    ms ≤ ((if (ms * 367647 + 500000) / 1000000 > 255 then 255
        else (ms * 367647 + 500000) / 1000000) * 272 + 50) / 100 + 2 := by
  split_ifs <;> omega

/-- C1: on a simulated register file, for every requested duration `ms` in the
settable range 3..696, `setIntegrationTime ms` followed by `getIntegrationTime`
returns a value within one 2.72 ms step of `ms`, and likewise
`setProximityTime` / `getProximityTime`. -/
theorem integration_proximity_time_round_trip (self : APDS9900 RegisterFile)
    (h : self._wire.port = RegisterFile.port) (ms : Nat) (hlo : 3 ≤ ms) (hhi : ms ≤ 696) :
    |((self.setIntegrationTime ms).getIntegrationTime.1 : ℚ) - ms| ≤ 2.72 ∧
    |((self.setProximityTime ms).getProximityTime.1 : ℚ) - ms| ≤ 2.72 := by
  have hn := short_round_trip_near ms hlo hhi
  rw [setIntegrationTime_getIntegrationTime self h ms hlo (by omega),
    setProximityTime_getProximityTime self h ms hlo (by omega)]
  exact ⟨abs_sub_le_of_near _ _ 2 _ hn.1 hn.2 (by norm_num),
    abs_sub_le_of_near _ _ 2 _ hn.1 hn.2 (by norm_num)⟩

theorem integration_proximity_time_round_trip_witness :
    (onRegisters (fun _ => 0))._wire.port = RegisterFile.port ∧ 3 ≤ 50 ∧ 50 ≤ 696 ∧
    |(((onRegisters (fun _ => 0)).setIntegrationTime 50).getIntegrationTime.1 : ℚ) - (50 : Nat)|
      ≤ 2.72 ∧
    |(((onRegisters (fun _ => 0)).setProximityTime 50).getProximityTime.1 : ℚ) - (50 : Nat)|
      ≤ 2.72 :=
  ⟨rfl, by decide, by decide,
    integration_proximity_time_round_trip (onRegisters (fun _ => 0)) rfl 50
      (by decide) (by decide)⟩

/-! ## Wait time -/

@[simp] theorem setWaitTime_port (self : APDS9900 σ) (ms : Nat) :
    (self.setWaitTime ms)._wire.port = self._wire.port := rfl

/-- The registers after `setWaitTime ms` in long-wait mode. -/
theorem setWaitTime_registers_long (self : APDS9900 RegisterFile)
    (h : self._wire.port = RegisterFile.port) (ms : Nat) (hlo : 696 < ms) (hhi : ms < 65536) :
    (self.setWaitTime ms).registers
      = fun r =>
          if r = 0x03 then 256 - (if (ms + 16) / 32 > 255 then 255 else (ms + 16) / 32)
          else if r = 0x0D then 0x02 else self.registers r := by
  have hW : decide (ms > 696) = true := by simpa using hlo
  have hS : 1 ≤ (ms + 16) / 32 := by omega
  simp only [setWaitTime, hW, if_true]
  rw [long_timing_byte_eq ms hhi, writeRegister8_registers _ (by simpa using h),
    writeRegister8_registers _ h]
  funext r
  simp only [APDS9900_WTIME, APDS9900_CONFIG, Nat.reduceMod]
  generalize (ms + 16) / 32 = S at hS ⊢
  split_ifs <;> omega

/-- The registers after `setWaitTime ms` in the 2.72 ms mode. -/
theorem setWaitTime_registers_short (self : APDS9900 RegisterFile)
    (h : self._wire.port = RegisterFile.port) (ms : Nat) (hlo : 3 ≤ ms) (hhi : ms ≤ 696) :
    (self.setWaitTime ms).registers
      = fun r =>
          if r = 0x03 then
            256 - (if (ms * 367647 + 500000) / 1000000 > 255 then 255
                   else (ms * 367647 + 500000) / 1000000)
          else if r = 0x0D then 0x00 else self.registers r := by
  have hW : decide (ms > 696) = false := by simpa using hhi
  have hms : (if ms < 3 then 3 else ms) = ms := by split_ifs <;> omega
  have hS : 1 ≤ (ms * 367647 + 500000) / 1000000 := by omega
  simp only [setWaitTime, hW, if_false, Bool.false_eq_true]
  rw [hms, timing_byte_eq ms (by omega), writeRegister8_registers _ (by simpa using h),
    writeRegister8_registers _ h]
  funext r
  simp only [APDS9900_WTIME, APDS9900_CONFIG, Nat.reduceMod]
  generalize (ms * 367647 + 500000) / 1000000 = S at hS ⊢
  split_ifs <;> omega

/-- What `getWaitTime` returns on a register file: the mode flag in the
configuration register selects the step size. -/
theorem getWaitTime_value (self : APDS9900 RegisterFile)
    (h : self._wire.port = RegisterFile.port) :
    self.getWaitTime.1
      = if self.registers 0x0D % 256 &&& 0x02 = 0x02 then
          (256 - self.registers 0x03 % 256) * 32
        else ((256 - self.registers 0x03 % 256) * 272 + 50) / 100 := by
  have hp : (self.readRegister APDS9900_CONFIG).2._wire.port = RegisterFile.port := by
    simpa using h
  simp only [getWaitTime]
  rw [Arduino.round_milliseconds _ (readRegister_lt _ _).le,
    Arduino.round_long_milliseconds _ (readRegister_lt _ _).le,
    readRegister_value _ hp, readRegister_value _ h, readRegister_registers _ h]
  simp only [APDS9900_WTIME, APDS9900_CONFIG, Nat.reduceMod]
  have hv : self.registers 3 % 256 < 256 := Nat.mod_lt _ (by norm_num)
  generalize self.registers 3 % 256 = v at hv ⊢
  have e3 : ((256 - v) * 272 + 50) / 100 < 65536 := by omega
  by_cases hc : self.registers 13 % 256 &&& 2 = 2
  · simp only [hc, decide_True, if_true]
    omega
  · simp only [hc, decide_False, if_false, Bool.false_eq_true]
    generalize ((256 - v) * 272 + 50) / 100 = X at e3 ⊢
    omega

/-- What `getWaitTime` reads back after `setWaitTime ms` in the 2.72 ms mode. -/
theorem setWaitTime_getWaitTime_short (self : APDS9900 RegisterFile)
    (h : self._wire.port = RegisterFile.port) (ms : Nat) (hlo : 3 ≤ ms) (hhi : ms ≤ 696) :
    (self.setWaitTime ms).getWaitTime.1
      = ((if (ms * 367647 + 500000) / 1000000 > 255 then 255
          else (ms * 367647 + 500000) / 1000000) * 272 + 50) / 100 := by
  have hS : 1 ≤ (ms * 367647 + 500000) / 1000000 := by omega
  rw [getWaitTime_value _ (by simpa using h), setWaitTime_registers_short self h ms hlo hhi]
  generalize (ms * 367647 + 500000) / 1000000 = S at hS ⊢
  have hT : 1 ≤ (if S > 255 then 255 else S) ∧ (if S > 255 then 255 else S) ≤ 255 := by
    split_ifs <;> omega
  generalize (if S > 255 then 255 else S) = T at hT ⊢
  have e1 : (256 - T) % 256 = 256 - T := by omega
  have e2 : 256 - (256 - T) = T := by omega
  simp [e1, e2]

/-- What `getWaitTime` reads back after `setWaitTime ms` in long-wait mode. -/
theorem setWaitTime_getWaitTime_long (self : APDS9900 RegisterFile)
    (h : self._wire.port = RegisterFile.port) (ms : Nat) (hlo : 696 < ms) (hhi : ms < 65536) :
    (self.setWaitTime ms).getWaitTime.1
      = (if (ms + 16) / 32 > 255 then 255 else (ms + 16) / 32) * 32 := by
  have hS : 1 ≤ (ms + 16) / 32 := by omega
  rw [getWaitTime_value _ (by simpa using h), setWaitTime_registers_long self h ms hlo hhi]
  generalize (ms + 16) / 32 = S at hS ⊢
  have hT : 1 ≤ (if S > 255 then 255 else S) ∧ (if S > 255 then 255 else S) ≤ 255 := by
    split_ifs <;> omega
  generalize (if S > 255 then 255 else S) = T at hT ⊢
  have e1 : (256 - T) % 256 = 256 - T := by omega
  have e2 : 256 - (256 - T) = T := by omega
  simp [e1, e2]

/-- The 32 ms round trip stays within 32 milliseconds on `697..8192`. -/
theorem long_round_trip_near (ms : Nat) (hlo : 696 < ms) (hhi : ms ≤ 8192) :
    (if (ms + 16) / 32 > 255 then 255 else (ms + 16) / 32) * 32 ≤ ms + 32 ∧
    ms ≤ (if (ms + 16) / 32 > 255 then 255 else (ms + 16) / 32) * 32 + 32 := by
  split_ifs <;> omega

/-- C2: on a simulated register file, for `ms` in 3..8192, `setWaitTime ms`
leaves the configuration register at 0x02 exactly when `ms > 696`;
`getWaitTime` then decodes the wait-time register with the step size that
flag selects (32 ms when set, 2.72 ms rounded to the nearest integer when
clear); and the value it returns is within 2.72 of `ms` for `ms` in 3..696 and
within 32 of `ms` for `ms` in 697..8192. -/
theorem wait_time_round_trip (self : APDS9900 RegisterFile)
    (h : self._wire.port = RegisterFile.port) (ms : Nat) (hlo : 3 ≤ ms) (hhi : ms ≤ 8192) :
    (self.setWaitTime ms).registers APDS9900_CONFIG = (if ms > 696 then 0x02 else 0x00) ∧
    (self.setWaitTime ms).getWaitTime.1
      = (if (self.setWaitTime ms).registers APDS9900_CONFIG &&& 0x02 = 0x02 then
          (256 - (self.setWaitTime ms).registers APDS9900_WTIME) * 32
        else ((256 - (self.setWaitTime ms).registers APDS9900_WTIME) * 272 + 50) / 100) ∧
    (if ms ≤ 696 then |((self.setWaitTime ms).getWaitTime.1 : ℚ) - ms| ≤ 2.72
      else |((self.setWaitTime ms).getWaitTime.1 : ℚ) - ms| ≤ 32) := by
  by_cases hm : ms ≤ 696
  · have hn := short_round_trip_near ms hlo hm
    have hS : 1 ≤ (ms * 367647 + 500000) / 1000000 := by omega
    rw [setWaitTime_getWaitTime_short self h ms hlo hm,
      setWaitTime_registers_short self h ms hlo hm]
    refine ⟨?_, ?_, ?_⟩
    · have hm3 : ¬ 696 < ms := by omega
      simp [APDS9900_CONFIG, hm3]
    · simp only [APDS9900_CONFIG, APDS9900_WTIME]
      generalize (ms * 367647 + 500000) / 1000000 = S at hS ⊢
      have hT : 1 ≤ (if S > 255 then 255 else S) ∧ (if S > 255 then 255 else S) ≤ 255 := by
        split_ifs <;> omega
      generalize (if S > 255 then 255 else S) = T at hT ⊢
      have e2 : 256 - (256 - T) = T := by omega
      simp [e2]
    · rw [if_pos hm]
      exact abs_sub_le_of_near _ _ 2 _ hn.1 hn.2 (by norm_num)
  · have hm2 : 696 < ms := by omega
    have hn := long_round_trip_near ms hm2 hhi
    have hS : 1 ≤ (ms + 16) / 32 := by omega
    rw [setWaitTime_getWaitTime_long self h ms hm2 (by omega),
      setWaitTime_registers_long self h ms hm2 (by omega)]
    refine ⟨?_, ?_, ?_⟩
    · simp [APDS9900_CONFIG, hm2]
    · simp only [APDS9900_CONFIG, APDS9900_WTIME]
      generalize (ms + 16) / 32 = S at hS ⊢
      have hT : 1 ≤ (if S > 255 then 255 else S) ∧ (if S > 255 then 255 else S) ≤ 255 := by
        split_ifs <;> omega
      generalize (if S > 255 then 255 else S) = T at hT ⊢
      have e2 : 256 - (256 - T) = T := by omega
      simp [e2]
    · rw [if_neg hm]
      exact abs_sub_le_of_near _ _ 32 _ hn.1 hn.2 (by norm_num)

/-! ## Clamping -/

/-- The step count the specification names, `round(ms / 2.72)`. -/
theorem round_div_step (ms : Nat) :
    Arduino.round ((ms : ℚ) / 2.72) = (((200 * ms + 272) / 544 : Nat) : Int) := by
  have e : (ms : ℚ) / 2.72 = ((100 * ms : Nat) : ℚ) / ((272 : Nat) : ℚ) := by
    push_cast
    rw [div_eq_div_iff (by norm_num) (by norm_num)]
    ring
  rw [e, Arduino.round_natCast_div _ _ (by norm_num)]
  congr 1
  omega

/-- The long-wait step count the specification names, `round(ms / 32)`. -/
theorem round_div_long_step (ms : Nat) :
    Arduino.round ((ms : ℚ) / 32) = (((ms + 16) / 32 : Nat) : Int) := by
  have e : (ms : ℚ) / 32 = ((ms : Nat) : ℚ) / ((32 : Nat) : ℚ) := by
    push_cast
    ring
  rw [e, Arduino.round_natCast_div _ _ (by norm_num)]
  congr 1
  omega

/-- The byte `256 - steps` fits the 8-bit register once `steps` is at least one. -/
theorem clamp_byte (S : Nat) (hS : 1 ≤ S) :
    (256 - (if S > 255 then 255 else S)) % 256 = 256 - (if S > 255 then 255 else S) := by
  split_ifs <;> omega

/-- The single write `setIntegrationTime` issues. -/
theorem setIntegrationTime_log (self : APDS9900 σ) (ms : Nat) (hms : ms < 65536) :
    ∃ s, (self.setIntegrationTime ms)._wire.log
      = self._wire.log ++
          [BusEvent.transmission self._address
            [APDS9900_ATIME,
             256 - (if ((if ms < 3 then 3 else ms) * 367647 + 500000) / 1000000 > 255 then 255
                    else ((if ms < 3 then 3 else ms) * 367647 + 500000) / 1000000)] s] := by
  have h3 : (if ms < 3 then 3 else ms) < 65536 ∧ 3 ≤ (if ms < 3 then 3 else ms) := by
    split_ifs <;> omega
  simp only [setIntegrationTime]
  generalize (if ms < 3 then 3 else ms) = m at h3 ⊢
  have hS : 1 ≤ (m * 367647 + 500000) / 1000000 := by omega
  rw [timing_byte_eq m h3.1, writeRegister8_log, clamp_byte _ hS]
  exact ⟨_, rfl⟩

/-- The single write `setProximityTime` issues. -/
theorem setProximityTime_log (self : APDS9900 σ) (ms : Nat) (hms : ms < 65536) :
    ∃ s, (self.setProximityTime ms)._wire.log
      = self._wire.log ++
          [BusEvent.transmission self._address
            [APDS9900_PTIME,
             256 - (if ((if ms < 3 then 3 else ms) * 367647 + 500000) / 1000000 > 255 then 255
                    else ((if ms < 3 then 3 else ms) * 367647 + 500000) / 1000000)] s] := by
  have h3 : (if ms < 3 then 3 else ms) < 65536 ∧ 3 ≤ (if ms < 3 then 3 else ms) := by
    split_ifs <;> omega
  simp only [setProximityTime]
  generalize (if ms < 3 then 3 else ms) = m at h3 ⊢
  have hS : 1 ≤ (m * 367647 + 500000) / 1000000 := by omega
  rw [timing_byte_eq m h3.1, writeRegister8_log, clamp_byte _ hS]
  exact ⟨_, rfl⟩

/-- The two writes `setWaitTime` issues in the 2.72 ms mode. -/
theorem setWaitTime_log_short (self : APDS9900 σ) (ms : Nat) (hms : ms ≤ 696) :
    ∃ s₁ s₂, (self.setWaitTime ms)._wire.log
      = self._wire.log ++
          [BusEvent.transmission self._address [APDS9900_CONFIG, 0x00] s₁,
           BusEvent.transmission self._address
            [APDS9900_WTIME,
             256 - (if ((if ms < 3 then 3 else ms) * 367647 + 500000) / 1000000 > 255 then 255
                    else ((if ms < 3 then 3 else ms) * 367647 + 500000) / 1000000)] s₂] := by
  have hW : decide (ms > 696) = false := by simpa using hms
  have h3 : (if ms < 3 then 3 else ms) < 65536 ∧ 3 ≤ (if ms < 3 then 3 else ms) := by
    split_ifs <;> omega
  simp only [setWaitTime, hW, if_false, Bool.false_eq_true]
  generalize (if ms < 3 then 3 else ms) = m at h3 ⊢
  have hS : 1 ≤ (m * 367647 + 500000) / 1000000 := by omega
  rw [timing_byte_eq m h3.1, writeRegister8_log, writeRegister8_log, clamp_byte _ hS,
    List.append_assoc]
  exact ⟨_, _, rfl⟩

/-- The two writes `setWaitTime` issues in long-wait mode. -/
theorem setWaitTime_log_long (self : APDS9900 σ) (ms : Nat) (hlo : 696 < ms)
    (hms : ms < 65536) :
    ∃ s₁ s₂, (self.setWaitTime ms)._wire.log
      = self._wire.log ++
          [BusEvent.transmission self._address [APDS9900_CONFIG, 0x02] s₁,
           BusEvent.transmission self._address
            [APDS9900_WTIME,
             256 - (if (ms + 16) / 32 > 255 then 255 else (ms + 16) / 32)] s₂] := by
  have hW : decide (ms > 696) = true := by simpa using hlo
  simp only [setWaitTime, hW, if_true]
  have hS : 1 ≤ (ms + 16) / 32 := by omega
  rw [long_timing_byte_eq ms hms, writeRegister8_log, writeRegister8_log, clamp_byte _ hS,
    List.append_assoc]
  exact ⟨_, _, rfl⟩

/-- C3: for each timing encoder, every `ms < 3` leaves the device and the bus
exactly as `ms = 3` does; and every `ms` whose step count (`round(ms / 2.72)`
in the 2.72 ms mode, `round(ms / 32)` in long-wait mode) exceeds 255 writes
the timing-register value for 255 steps, 1. -/
theorem timing_clamp (self : APDS9900 σ) (lo hi w long : Nat)
    (hlo : lo < 3)
    (hhi : hi < 65536) (hsteps : 255 < Arduino.round ((hi : ℚ) / 2.72))
    (hw : w ≤ 696) (hwsteps : 255 < Arduino.round ((w : ℚ) / 2.72))
    (hl : 696 < long) (hl16 : long < 65536) (hlsteps : 255 < Arduino.round ((long : ℚ) / 32)) :
    self.setIntegrationTime lo = self.setIntegrationTime 3 ∧
    self.setProximityTime lo = self.setProximityTime 3 ∧
    self.setWaitTime lo = self.setWaitTime 3 ∧
    (∃ s, (self.setIntegrationTime hi)._wire.log
      = self._wire.log ++ [BusEvent.transmission self._address [APDS9900_ATIME, 1] s]) ∧
    (∃ s, (self.setProximityTime hi)._wire.log
      = self._wire.log ++ [BusEvent.transmission self._address [APDS9900_PTIME, 1] s]) ∧
    (∃ s₁ s₂, (self.setWaitTime w)._wire.log
      = self._wire.log ++
          [BusEvent.transmission self._address [APDS9900_CONFIG, 0x00] s₁,
           BusEvent.transmission self._address [APDS9900_WTIME, 1] s₂]) ∧
    (∃ s₁ s₂, (self.setWaitTime long)._wire.log
      = self._wire.log ++
          [BusEvent.transmission self._address [APDS9900_CONFIG, 0x02] s₁,
           BusEvent.transmission self._address [APDS9900_WTIME, 1] s₂]) := by
  rw [round_div_step] at hsteps hwsteps
  rw [round_div_long_step] at hlsteps
  have hhi3 : (if hi < 3 then 3 else hi) = hi := by split_ifs <;> omega
  have hw3 : (if w < 3 then 3 else w) = w := by split_ifs <;> omega
  have e1 : (hi * 367647 + 500000) / 1000000 > 255 := by omega
  have e2 : (w * 367647 + 500000) / 1000000 > 255 := by omega
  have e3 : (long + 16) / 32 > 255 := by omega
  have hlo696 : decide (lo > 696) = false := by
    rw [decide_eq_false_iff_not]
    omega
  refine ⟨?_, ?_, ?_, ?_, ?_, ?_, ?_⟩
  · simp only [setIntegrationTime, hlo, if_true, lt_self_iff_false, if_false]
  · simp only [setProximityTime, hlo, if_true, lt_self_iff_false, if_false]
  · have h3 : decide (3 > 696) = false := by decide
    simp only [setWaitTime, hlo, hlo696, h3, if_true, lt_self_iff_false, if_false,
      Bool.false_eq_true]
  · have := setIntegrationTime_log self hi hhi
    rwa [hhi3, if_pos e1] at this
  · have := setProximityTime_log self hi hhi
    rwa [hhi3, if_pos e1] at this
  · have := setWaitTime_log_short self w hw
    rwa [hw3, if_pos e2] at this
  · have := setWaitTime_log_long self long hl hl16
    rwa [if_pos e3] at this

theorem timing_clamp_witness :
    (1 < 3 ∧ 1000 < 65536 ∧ 255 < Arduino.round (((1000 : Nat) : ℚ) / 2.72) ∧
      696 ≤ 696 ∧ 255 < Arduino.round (((696 : Nat) : ℚ) / 2.72) ∧
      696 < 8192 ∧ 8192 < 65536 ∧ 255 < Arduino.round (((8192 : Nat) : ℚ) / 32)) ∧
    ((onRegisters (fun _ => 0)).setIntegrationTime 1
        = (onRegisters (fun _ => 0)).setIntegrationTime 3 ∧
      (onRegisters (fun _ => 0)).setProximityTime 1
        = (onRegisters (fun _ => 0)).setProximityTime 3 ∧
      (onRegisters (fun _ => 0)).setWaitTime 1 = (onRegisters (fun _ => 0)).setWaitTime 3 ∧
      (∃ s, ((onRegisters (fun _ => 0)).setIntegrationTime 1000)._wire.log
        = (onRegisters (fun _ => 0))._wire.log ++
            [BusEvent.transmission (onRegisters (fun _ => 0))._address [APDS9900_ATIME, 1] s]) ∧
      (∃ s, ((onRegisters (fun _ => 0)).setProximityTime 1000)._wire.log
        = (onRegisters (fun _ => 0))._wire.log ++
            [BusEvent.transmission (onRegisters (fun _ => 0))._address [APDS9900_PTIME, 1] s]) ∧
      (∃ s₁ s₂, ((onRegisters (fun _ => 0)).setWaitTime 696)._wire.log
        = (onRegisters (fun _ => 0))._wire.log ++
            [BusEvent.transmission (onRegisters (fun _ => 0))._address [APDS9900_CONFIG, 0x00] s₁,
             BusEvent.transmission (onRegisters (fun _ => 0))._address [APDS9900_WTIME, 1] s₂]) ∧
      (∃ s₁ s₂, ((onRegisters (fun _ => 0)).setWaitTime 8192)._wire.log
        = (onRegisters (fun _ => 0))._wire.log ++
            [BusEvent.transmission (onRegisters (fun _ => 0))._address [APDS9900_CONFIG, 0x02] s₁,
             BusEvent.transmission (onRegisters (fun _ => 0))._address [APDS9900_WTIME, 1] s₂])) :=
  have h1 : 255 < Arduino.round (((1000 : Nat) : ℚ) / 2.72) := by
    rw [round_div_step]; decide
  have h2 : 255 < Arduino.round (((696 : Nat) : ℚ) / 2.72) := by
    rw [round_div_step]; decide
  have h3 : 255 < Arduino.round (((8192 : Nat) : ℚ) / 32) := by
    rw [round_div_long_step]; decide
  ⟨⟨by decide, by decide, h1, by decide, h2, by decide, by decide, h3⟩,
    timing_clamp (onRegisters (fun _ => 0)) 1 1000 696 8192 (by decide) (by decide) h1
      (by decide) h2 (by decide) (by decide) h3⟩

theorem wait_time_round_trip_witness :
    (onRegisters (fun _ => 0))._wire.port = RegisterFile.port ∧ 3 ≤ 50 ∧ 50 ≤ 8192 ∧
    3 ≤ 1000 ∧ 1000 ≤ 8192 ∧
    |((((onRegisters (fun _ => 0)).setWaitTime 50).getWaitTime.1 : ℚ)) - (50 : Nat)| ≤ 2.72 ∧
    |((((onRegisters (fun _ => 0)).setWaitTime 1000).getWaitTime.1 : ℚ)) - (1000 : Nat)| ≤ 32 :=
  ⟨rfl, by decide, by decide, by decide, by decide,
    by simpa using
      (wait_time_round_trip (onRegisters (fun _ => 0)) rfl 50 (by decide) (by decide)).2.2,
    by simpa using
      (wait_time_round_trip (onRegisters (fun _ => 0)) rfl 1000 (by decide) (by decide)).2.2⟩

/-! ## Thresholds -/

/-- The low byte of a 16-bit value by masking. -/
theorem and_0xFF (v : Nat) : v &&& 0xFF = v % 256 :=
  Nat.and_pow_two_sub_one_eq_mod v 8

/-- The high byte of a 16-bit value by shifting. -/
theorem shiftRight_8 (v : Nat) : v >>> 8 = v / 256 :=
  Nat.shiftRight_eq_div_pow v 8

/-- The single transaction `writeRegister16` issues: register, low byte, high byte. -/
theorem writeRegister16_log (self : APDS9900 σ) (reg value : Nat) (hv : value < 65536) :
    (self.writeRegister16 reg value).2._wire.log
      = self._wire.log ++
          [BusEvent.transmission self._address [reg % 256, value % 256, value / 256]
            (self.writeRegister16 reg value).1] := by
  have e1 : value % 65536 = value := Nat.mod_eq_of_lt hv
  have e2 : value / 256 % 256 = value / 256 := by omega
  simp [writeRegister16, TwoWire.beginTransmission, TwoWire.write, TwoWire.endTransmission,
    and_0xFF, shiftRight_8, e1, e2]

@[simp] theorem writeRegister16_address (self : APDS9900 σ) (reg value : Nat) :
    (self.writeRegister16 reg value).2._address = self._address := rfl

/-- C4: for 16-bit `low` and `high`, `setALSThresholds` and `setPROXThresholds`
return true exactly when `low < high`.  When `low >= high` they return false
and leave the device and the bus untouched (no transaction).  When `low < high`
they issue exactly two transmissions, in order: the low-threshold register
(0x04 for ALS, 0x08 for PROX) with bytes `low % 256, low / 256`, then the
high-threshold register (0x06 / 0x0A) with bytes `high % 256, high / 256`. -/
theorem threshold_validation (self : APDS9900 σ) (low high : Nat)
    (hl : low < 65536) (hh : high < 65536) :
    ((self.setALSThresholds low high).1 = true ↔ low < high) ∧
    ((self.setPROXThresholds low high).1 = true ↔ low < high) ∧
    (if low < high then
      (∃ s₁ s₂, (self.setALSThresholds low high).2._wire.log
        = self._wire.log ++
            [BusEvent.transmission self._address [0x04, low % 256, low / 256] s₁,
             BusEvent.transmission self._address [0x06, high % 256, high / 256] s₂]) ∧
      (∃ s₁ s₂, (self.setPROXThresholds low high).2._wire.log
        = self._wire.log ++
            [BusEvent.transmission self._address [0x08, low % 256, low / 256] s₁,
             BusEvent.transmission self._address [0x0A, high % 256, high / 256] s₂])
    else
      self.setALSThresholds low high = (false, self) ∧
      self.setPROXThresholds low high = (false, self)) := by
  by_cases h : low < high
  · have hge : ¬ low ≥ high := by omega
    simp only [setALSThresholds, setPROXThresholds, hge, h, if_false, if_true, true_and]
    constructor
    · rw [writeRegister16_log _ _ _ hh, writeRegister16_log _ _ _ hl, List.append_assoc]
      exact ⟨_, _, rfl⟩
    · rw [writeRegister16_log _ _ _ hh, writeRegister16_log _ _ _ hl, List.append_assoc]
      exact ⟨_, _, rfl⟩
  · have hge : low ≥ high := by omega
    simp [setALSThresholds, setPROXThresholds, hge, h]

theorem threshold_validation_witness :
    (10 < 65536 ∧ 20 < 65536) ∧
    ((onRegisters (fun _ => 0)).setALSThresholds 10 10 = (false, onRegisters (fun _ => 0)) ∧
      (onRegisters (fun _ => 0)).setALSThresholds 20 10 = (false, onRegisters (fun _ => 0))) ∧
    ((onRegisters (fun _ => 0)).setALSThresholds 10 20).1 = true ∧
    (∃ s₁ s₂, ((onRegisters (fun _ => 0)).setALSThresholds 10 20).2._wire.log
        = (onRegisters (fun _ => 0))._wire.log ++
            [BusEvent.transmission (onRegisters (fun _ => 0))._address [0x04, 10, 0] s₁,
             BusEvent.transmission (onRegisters (fun _ => 0))._address [0x06, 20, 0] s₂]) :=
  ⟨⟨by decide, by decide⟩,
    ⟨by simpa using
        (threshold_validation (onRegisters (fun _ => 0)) 10 10 (by decide) (by decide)).2.2.1,
      by simpa using
        (threshold_validation (onRegisters (fun _ => 0)) 20 10 (by decide) (by decide)).2.2.1⟩,
    (threshold_validation (onRegisters (fun _ => 0)) 10 20 (by decide) (by decide)).1.2
      (by decide),
    by simpa using
      (threshold_validation (onRegisters (fun _ => 0)) 10 20 (by decide) (by decide)).2.2.1⟩

/-! ## Interrupt persistence -/

set_option maxRecDepth 100000 in
/-- Replacing the low nibble of a byte: the result is a byte, keeps the high
nibble, and is the byte itself when the low nibble already matches. -/
theorem low_nibble_bits : ∀ p < 256, ∀ v < 16,
    ((p &&& 0xF0) ||| v) % 256 = (p &&& 0xF0) ||| v ∧
    ((p &&& 0xF0) ||| v) &&& 0xF0 = p &&& 0xF0 ∧
    (p &&& 0x0F = v → p = (p &&& 0xF0) ||| v) := by
  decide!

set_option maxRecDepth 100000 in
/-- Replacing the high nibble of a byte: the result is a byte, keeps the low
nibble, and is the byte itself when the high nibble already matches. -/
theorem high_nibble_bits : ∀ p < 256, ∀ v < 16,
    (v <<< 4) % 256 = v * 16 ∧
    ((p &&& 0x0F) ||| (v * 16)) % 256 = (p &&& 0x0F) ||| (v * 16) ∧
    ((p &&& 0x0F) ||| (v * 16)) &&& 0x0F = p &&& 0x0F ∧
    (p &&& 0xF0 = v * 16 → p = (p &&& 0x0F) ||| (v * 16)) := by
  decide!

/-- The persistence register after `setALSInterruptPersistence v`. -/
theorem setALSInterruptPersistence_registers (self : APDS9900 RegisterFile)
    (h : self._wire.port = RegisterFile.port) (p v : Nat)
    (hp : self.registers APDS9900_PERS = p) (hp256 : p < 256) (hv : v ≤ 15) :
    (self.setALSInterruptPersistence v).2.registers APDS9900_PERS = (p &&& 0xF0) ||| v := by
  obtain ⟨b1, -, b3⟩ := low_nibble_bits p hp256 v (by omega)
  have hgt : ¬ v > 0x0F := by omega
  have hr : (self.readRegister APDS9900_PERS).1 = p := by
    rw [readRegister_value _ h]
    simp only [APDS9900_PERS, Nat.reduceMod] at hp ⊢
    rw [hp]
    exact Nat.mod_eq_of_lt hp256
  simp only [setALSInterruptPersistence, hgt, if_false, hr]
  by_cases hc : p &&& 0x0F = v
  · simp only [hc, ne_eq, not_true_eq_false, if_false]
    rw [readRegister_registers _ h, hp]
    exact b3 hc
  · simp only [hc, ne_eq, not_false_eq_true, if_true]
    rw [writeRegister8_registers _ (by simpa using h)]
    simp only [APDS9900_PERS, Nat.reduceMod, if_true]
    rw [b1, b1]

/-- The persistence register after `setPROXInterruptPersistence v`. -/
theorem setPROXInterruptPersistence_registers (self : APDS9900 RegisterFile)
    (h : self._wire.port = RegisterFile.port) (p v : Nat)
    (hp : self.registers APDS9900_PERS = p) (hp256 : p < 256) (hv : v ≤ 15) :
    (self.setPROXInterruptPersistence v).2.registers APDS9900_PERS
      = (p &&& 0x0F) ||| (v * 16) := by
  obtain ⟨b0, b1, -, b3⟩ := high_nibble_bits p hp256 v (by omega)
  have hgt : ¬ v > 0x0F := by omega
  have hr : (self.readRegister APDS9900_PERS).1 = p := by
    rw [readRegister_value _ h]
    simp only [APDS9900_PERS, Nat.reduceMod] at hp ⊢
    rw [hp]
    exact Nat.mod_eq_of_lt hp256
  simp only [setPROXInterruptPersistence, hgt, if_false, hr, b0]
  by_cases hc : p &&& 0xF0 = v * 16
  · simp only [hc, ne_eq, not_true_eq_false, if_false]
    rw [readRegister_registers _ h, hp]
    exact b3 hc
  · simp only [hc, ne_eq, not_false_eq_true, if_true]
    rw [writeRegister8_registers _ (by simpa using h)]
    simp only [APDS9900_PERS, Nat.reduceMod, if_true]
    rw [b1, b1]

/-- C5: on a simulated register file, for every persistence byte `p` and
every `v` in 0..15, after `setALSInterruptPersistence v` the register holds
`(p AND 0xF0) OR v`, so its high nibble is that of `p`; and after
`setPROXInterruptPersistence v` it holds `(p AND 0x0F) OR (v * 16)`, so its
low nibble is that of `p`. -/
theorem persistence_isolation (self : APDS9900 RegisterFile)
    (h : self._wire.port = RegisterFile.port) (p v : Nat)
    (hp : self.registers APDS9900_PERS = p) (hp256 : p < 256) (hv : v ≤ 15) :
    (self.setALSInterruptPersistence v).2.registers APDS9900_PERS = (p &&& 0xF0) ||| v ∧
    (self.setALSInterruptPersistence v).2.registers APDS9900_PERS &&& 0xF0 = p &&& 0xF0 ∧
    (self.setPROXInterruptPersistence v).2.registers APDS9900_PERS
      = (p &&& 0x0F) ||| (v * 16) ∧
    (self.setPROXInterruptPersistence v).2.registers APDS9900_PERS &&& 0x0F = p &&& 0x0F := by
  rw [setALSInterruptPersistence_registers self h p v hp hp256 hv,
    setPROXInterruptPersistence_registers self h p v hp hp256 hv]
  exact ⟨rfl, (low_nibble_bits p hp256 v (by omega)).2.1, rfl,
    (high_nibble_bits p hp256 v (by omega)).2.2.1⟩

theorem persistence_isolation_witness :
    (onRegisters (fun _ => 0xA5))._wire.port = RegisterFile.port ∧
    (onRegisters (fun _ => 0xA5)).registers APDS9900_PERS = 0xA5 ∧ 0xA5 < 256 ∧ 3 ≤ 15 ∧
    ((onRegisters (fun _ => 0xA5)).setALSInterruptPersistence 3).2.registers APDS9900_PERS
      = 0xA3 ∧
    ((onRegisters (fun _ => 0xA5)).setPROXInterruptPersistence 3).2.registers APDS9900_PERS
      = 0x35 :=
  ⟨rfl, rfl, by decide, by decide,
    (persistence_isolation (onRegisters (fun _ => 0xA5)) rfl 0xA5 3 rfl
      (by decide) (by decide)).1,
    (persistence_isolation (onRegisters (fun _ => 0xA5)) rfl 0xA5 3 rfl
      (by decide) (by decide)).2.2.1⟩

/-! ## Errors -/

/-- What a short read leaves behind, on any bus: the value 0, and as error
state the status of the address transmission. -/
theorem readRegister16_short (self : APDS9900 σ) (reg : Nat)
    (hshort :
      ((((self._wire.beginTransmission self._address).write reg).endTransmission).2.requestFrom
        self._address 2).1 ≠ 2) :
    (self.readRegister16 reg).1 = 0 ∧
    (self.readRegister16 reg).2.getLastError.1
      = (self._wire.port.endTransmission self._wire.peripheral self._address [reg % 256]).1 := by
  simp only [readRegister16, hshort, if_false, getLastError]
  simp [TwoWire.beginTransmission, TwoWire.write, TwoWire.endTransmission]

/-- C6, at the failing input: the bus acknowledges the address transmission
(status 0) and delivers 1 byte where `getALS_CDATA` requested 2, and 0 bytes
where `readRegister` requested 1.  Both reads return 0, and the following
`getLastError` returns 0 as well: the short read is not recorded. -/
theorem short_read_not_recorded :
    onShortReads.getALS_CDATA.1 = 0 ∧
    onShortReads.getALS_CDATA.2._wire.log
      = [BusEvent.transmission 0x39 [0x14] 0, BusEvent.request 0x39 2 [0x55]] ∧
    onShortReads.getALS_CDATA.2.getLastError.1 = 0 ∧
    (onShortReads.readRegister APDS9900_STATUS).1 = 0 ∧
    (onShortReads.readRegister APDS9900_STATUS).2._wire.log
      = [BusEvent.transmission 0x39 [0x13] 0, BusEvent.request 0x39 1 []] ∧
    (onShortReads.readRegister APDS9900_STATUS).2.getLastError.1 = 0 := by
  decide

/-- C7: `getLastError` returns the stored error code and clears it, without
touching the bus, so a second `getLastError` returns 0; a freshly constructed
device reports 0. -/
theorem getLastError_read_and_clear (self : APDS9900 σ) (wire : TwoWire σ)
    (indeterminate : Nat) :
    self.getLastError.1 = self._error ∧
    self.getLastError.2._error = 0 ∧
    self.getLastError.2._wire = self._wire ∧
    self.getLastError.2._address = self._address ∧
    self.getLastError.2.getLastError.1 = 0 ∧
    (init wire indeterminate).getLastError.1 = 0 :=
  ⟨rfl, rfl, rfl, rfl, rfl, rfl⟩

/-! ## Power state -/

set_option maxRecDepth 100000 in
/-- Setting bit 0 of a byte: the result is a byte with bit 0 set and bits 1..7
kept, and is the byte itself when bit 0 was already set. -/
theorem power_on_bits : ∀ e < 256,
    (e ||| 0x01) % 256 = e ||| 0x01 ∧
    (e ||| 0x01) &&& 0x01 ≠ 0x00 ∧
    (e ||| 0x01) &&& 0xFE = e &&& 0xFE ∧
    (e &&& 0x01 ≠ 0x00 → e ||| 0x01 = e) := by
  decide!

/-- The bus traffic and the registers after `wakeUp`, for enable byte `e`. -/
theorem wakeUp_effect (self : APDS9900 RegisterFile)
    (h : self._wire.port = RegisterFile.port) (e : Nat)
    (he : self.registers APDS9900_ENABLE = e) (he256 : e < 256) :
    self.wakeUp._wire.log
      = self._wire.log ++
          [BusEvent.transmission self._address [0x00] 0,
           BusEvent.request self._address 1 [e]] ++
          (if e &&& 0x01 = 0x00 then
            [BusEvent.transmission self._address [0x00, e ||| 0x01] 0]
           else []) ∧
    self.wakeUp.registers = (fun r => if r = 0x00 then e ||| 0x01 else self.registers r) := by
  obtain ⟨b1, -, -, b4⟩ := power_on_bits e he256
  have he' : self.registers 0 = e := he
  have hm : e % 256 = e := Nat.mod_eq_of_lt he256
  have hr : (self.readRegister APDS9900_ENABLE).1 = e := by
    rw [readRegister_value _ h]
    simp only [APDS9900_ENABLE, Nat.zero_mod, he', hm]
  simp only [wakeUp, hr]
  by_cases hc : e &&& 0x01 = 0x00
  · simp only [hc, if_true]
    rw [writeRegister8_log_registerFile _ (by simpa using h),
      writeRegister8_registers _ (by simpa using h), readRegister_log _ h,
      readRegister_registers _ h]
    simp only [APDS9900_ENABLE, Nat.zero_mod, he', hm, b1, readRegister_address, and_self]
  · simp only [hc, if_false]
    rw [readRegister_log _ h, readRegister_registers _ h]
    simp only [APDS9900_ENABLE, Nat.zero_mod, he', hm, List.append_nil, true_and]
    funext r
    split_ifs with hr0
    · rw [hr0, he', b4 hc]
    · rfl

@[simp] theorem wakeUp_port (self : APDS9900 σ) : self.wakeUp._wire.port = self._wire.port := by
  simp only [wakeUp]
  split_ifs <;> simp

@[simp] theorem wakeUp_address (self : APDS9900 σ) : self.wakeUp._address = self._address := by
  simp only [wakeUp]
  split_ifs <;> simp

/-- C8: on a simulated register file, for every enable byte `e`, `wakeUp`
reads the enable register and then issues no write when bit 0 of `e` is set,
and otherwise exactly one write of `e OR 0x01` to register 0x00; afterwards
the enable register holds `e OR 0x01` (bits 1..7 as in `e`) and every other
register is unchanged.  A second `wakeUp` leaves the same registers and only
reads. -/
theorem wakeUp_idempotent (self : APDS9900 RegisterFile)
    (h : self._wire.port = RegisterFile.port) (e : Nat)
    (he : self.registers APDS9900_ENABLE = e) (he256 : e < 256) :
    self.wakeUp._wire.log
      = self._wire.log ++
          [BusEvent.transmission self._address [0x00] 0,
           BusEvent.request self._address 1 [e]] ++
          (if e &&& 0x01 = 0x00 then
            [BusEvent.transmission self._address [0x00, e ||| 0x01] 0]
           else []) ∧
    self.wakeUp.registers = (fun r => if r = 0x00 then e ||| 0x01 else self.registers r) ∧
    (e ||| 0x01) &&& 0xFE = e &&& 0xFE ∧
    self.wakeUp.wakeUp.registers = self.wakeUp.registers ∧
    self.wakeUp.wakeUp._wire.log
      = self.wakeUp._wire.log ++
          [BusEvent.transmission self._address [0x00] 0,
           BusEvent.request self._address 1 [e ||| 0x01]] := by
  obtain ⟨b1, b2, b3, -⟩ := power_on_bits e he256
  have h1 := wakeUp_effect self h e he he256
  have he2 : self.wakeUp.registers APDS9900_ENABLE = e ||| 0x01 := by
    rw [h1.2]
    simp [APDS9900_ENABLE]
  have h2 := wakeUp_effect self.wakeUp (by simpa using h) (e ||| 0x01) he2 (by omega)
  refine ⟨h1.1, h1.2, b3, ?_, ?_⟩
  · have e4 := (power_on_bits (e ||| 1) (by omega)).2.2.2 b2
    rw [h2.2, h1.2]
    funext r
    by_cases hr0 : r = 0
    · simp only [hr0, if_true]
      exact e4
    · simp only [hr0, if_false]
  · rw [h2.1, if_neg b2]
    simp

theorem wakeUp_idempotent_witness :
    (onRegisters (fun _ => 0x06))._wire.port = RegisterFile.port ∧
    (onRegisters (fun _ => 0x06)).registers APDS9900_ENABLE = 0x06 ∧ 0x06 < 256 ∧
    (onRegisters (fun _ => 0x06)).wakeUp.registers APDS9900_ENABLE = 0x07 ∧
    (onRegisters (fun _ => 0x06)).wakeUp.wakeUp._wire.log
      = (onRegisters (fun _ => 0x06)).wakeUp._wire.log ++
          [BusEvent.transmission 0x39 [0x00] 0, BusEvent.request 0x39 1 [0x07]] :=
  ⟨rfl, rfl, by decide,
    by
      rw [(wakeUp_idempotent (onRegisters (fun _ => 0x06)) rfl 0x06 rfl (by decide)).2.1]
      rfl,
    (wakeUp_idempotent (onRegisters (fun _ => 0x06)) rfl 0x06 rfl (by decide)).2.2.2.2⟩

/-! ## Wait-time ordering -/

/-- C9: for every 16-bit `ms`, `setWaitTime ms` issues exactly two register
writes: first the configuration register (0x0D) with value 0x02 when
`ms > 696` and 0x00 otherwise, then the wait-time register (0x03) with a
byte in 1..255. -/
theorem setWaitTime_order (self : APDS9900 σ) (ms : Nat) (hms : ms < 65536) :
    ∃ s₁ s₂ b, 1 ≤ b ∧ b ≤ 255 ∧
      (self.setWaitTime ms)._wire.log
        = self._wire.log ++
            [BusEvent.transmission self._address [0x0D, if ms > 696 then 0x02 else 0x00] s₁,
             BusEvent.transmission self._address [0x03, b] s₂] := by
  by_cases hW : ms > 696
  · obtain ⟨s₁, s₂, hlog⟩ := setWaitTime_log_long self ms hW hms
    have hS : 1 ≤ (ms + 16) / 32 := by omega
    refine ⟨s₁, s₂, _, ?_, ?_, by rw [if_pos hW]; exact hlog⟩
    · split_ifs <;> omega
    · split_ifs <;> omega
  · obtain ⟨s₁, s₂, hlog⟩ := setWaitTime_log_short self ms (by omega)
    have h3 : 3 ≤ (if ms < 3 then 3 else ms) := by split_ifs <;> omega
    refine ⟨s₁, s₂, _, ?_, ?_, by rw [if_neg hW]; exact hlog⟩
    · generalize (if ms < 3 then 3 else ms) = m at h3
      have hS : 1 ≤ (m * 367647 + 500000) / 1000000 := by omega
      generalize (m * 367647 + 500000) / 1000000 = S at hS ⊢
      split_ifs <;> omega
    · generalize (if ms < 3 then 3 else ms) = m at h3
      have hS : 1 ≤ (m * 367647 + 500000) / 1000000 := by omega
      generalize (m * 367647 + 500000) / 1000000 = S at hS ⊢
      split_ifs <;> omega

theorem setWaitTime_order_witness :
    1000 < 65536 ∧
    ∃ s₁ s₂ b, 1 ≤ b ∧ b ≤ 255 ∧
      ((onRegisters (fun _ => 0)).setWaitTime 1000)._wire.log
        = (onRegisters (fun _ => 0))._wire.log ++
            [BusEvent.transmission (onRegisters (fun _ => 0))._address
              [0x0D, if 1000 > 696 then 0x02 else 0x00] s₁,
             BusEvent.transmission (onRegisters (fun _ => 0))._address [0x03, b] s₂] :=
  ⟨by decide, setWaitTime_order (onRegisters (fun _ => 0)) 1000 (by decide)⟩

/-! ## Connectivity -/

/-- C10: when the zero-byte probe reports a non-zero status, `begin` returns
false and the probe is the only bus transaction; when the probe reports 0,
`begin` issues exactly one further transmission, carrying the single byte
0xA0 (command bit 0x80 with the auto-increment bit 0x20), and returns true. -/
theorem begin_probe (self : APDS9900 σ) :
    (0xA0 : Nat) = 0x80 ||| 0x20 ∧
    if (self._wire.port.endTransmission self._wire.peripheral self._address []).1 ≠ 0 then
      self.begin.1 = false ∧
      self.begin.2._wire.log
        = self._wire.log ++
            [BusEvent.transmission self._address []
              (self._wire.port.endTransmission self._wire.peripheral self._address []).1]
    else
      self.begin.1 = true ∧
      ∃ s, self.begin.2._wire.log
        = self._wire.log ++
            [BusEvent.transmission self._address [] 0,
             BusEvent.transmission self._address [0xA0] s] := by
  refine ⟨by decide, ?_⟩
  by_cases hst : (self._wire.port.endTransmission self._wire.peripheral self._address []).1 = 0
  · rw [if_neg (by simpa using hst)]
    simp [begin, isConnected, writeRegister, TwoWire.beginTransmission, TwoWire.write,
      TwoWire.endTransmission, hst]
  · rw [if_pos hst]
    simp [begin, isConnected, TwoWire.beginTransmission, TwoWire.endTransmission, hst]

/-! ## Range validation -/

/-- C11: the bit-field setters reject exactly the out-of-range arguments
(`v > 15` for the two persistence setters, `v > 3` for drive strength and
gain, `ch > 1` for diode select).  A rejected call returns false and leaves
the device, the bus and the last-error state as they were; every other call
returns true. -/
theorem range_validation (self : APDS9900 σ) (v : Nat) :
    (if v > 15 then self.setALSInterruptPersistence v = (false, self)
      else (self.setALSInterruptPersistence v).1 = true) ∧
    (if v > 15 then self.setPROXInterruptPersistence v = (false, self)
      else (self.setPROXInterruptPersistence v).1 = true) ∧
    (if v > 3 then self.setLedDriveStrength v = (false, self)
      else (self.setLedDriveStrength v).1 = true) ∧
    (if v > 3 then self.setALSGainControl v = (false, self)
      else (self.setALSGainControl v).1 = true) ∧
    (if v > 1 then self.setProximityDiodeSelect v = (false, self)
      else (self.setProximityDiodeSelect v).1 = true) := by
  refine ⟨?_, ?_, ?_, ?_, ?_⟩
  · by_cases h : v > 15
    · simp only [setALSInterruptPersistence, Nat.reduceLeDiff, h, if_true]
    · simp only [setALSInterruptPersistence, h, if_false]
      split_ifs <;> rfl
  · by_cases h : v > 15
    · simp only [setPROXInterruptPersistence, h, if_true]
    · simp only [setPROXInterruptPersistence, h, if_false]
      split_ifs <;> rfl
  · by_cases h : v > 3
    · simp only [setLedDriveStrength, h, if_true]
    · simp only [setLedDriveStrength, h, if_false]
  · by_cases h : v > 3
    · simp only [setALSGainControl, h, if_true]
    · simp only [setALSGainControl, h, if_false]
  · by_cases h : v > 1
    · simp only [setProximityDiodeSelect, h, if_true]
    · simp only [setProximityDiodeSelect, h, if_false]

/-! ## Sleep -/

set_option maxRecDepth 100000 in
/-- Clearing bit 0 of a byte: the result is a byte with bit 0 clear and
bits 1..7 kept. -/
theorem power_off_bits : ∀ e < 256,
    (e &&& 0xFE) % 256 = e &&& 0xFE ∧
    (e &&& 0xFE) &&& 0x01 = 0x00 ∧
    (e &&& 0xFE) / 2 = e / 2 := by
  decide!

/-- C12: on a simulated register file, for every enable byte `e`, `sleep`
reads the enable register and then issues exactly one write, of `e AND 0xFE`
to register 0x00, whether or not bit 0 was set; afterwards the enable register
holds `e AND 0xFE` (bit 0 clear, bits 1..7 as in `e`) and every other register
is unchanged. -/
theorem sleep_effect (self : APDS9900 RegisterFile)
    (h : self._wire.port = RegisterFile.port) (e : Nat)
    (he : self.registers APDS9900_ENABLE = e) (he256 : e < 256) :
    self.sleep._wire.log
      = self._wire.log ++
          [BusEvent.transmission self._address [0x00] 0,
           BusEvent.request self._address 1 [e],
           BusEvent.transmission self._address [0x00, e &&& 0xFE] 0] ∧
    self.sleep.registers = (fun r => if r = 0x00 then e &&& 0xFE else self.registers r) ∧
    (e &&& 0xFE) &&& 0x01 = 0x00 ∧
    (e &&& 0xFE) / 2 = e / 2 := by
  obtain ⟨b1, b2, b3⟩ := power_off_bits e he256
  have he' : self.registers 0 = e := he
  have hm : e % 256 = e := Nat.mod_eq_of_lt he256
  have hr : (self.readRegister APDS9900_ENABLE).1 = e := by
    rw [readRegister_value _ h]
    simp only [APDS9900_ENABLE, Nat.zero_mod, he', hm]
  refine ⟨?_, ?_, b2, b3⟩
  · simp only [sleep, hr]
    rw [writeRegister8_log_registerFile _ (by simpa using h), readRegister_log _ h]
    simp only [APDS9900_ENABLE, Nat.zero_mod, he', hm, b1, readRegister_address,
      List.append_assoc, List.cons_append, List.nil_append]
  · simp only [sleep, hr]
    rw [writeRegister8_registers _ (by simpa using h), readRegister_registers _ h]
    simp only [APDS9900_ENABLE, Nat.zero_mod, b1]

theorem sleep_effect_witness :
    (onRegisters (fun _ => 0x06))._wire.port = RegisterFile.port ∧
    (onRegisters (fun _ => 0x06)).registers APDS9900_ENABLE = 0x06 ∧ 0x06 < 256 ∧
    (onRegisters (fun _ => 0x06)).sleep._wire.log
      = (onRegisters (fun _ => 0x06))._wire.log ++
          [BusEvent.transmission (onRegisters (fun _ => 0x06))._address [0x00] 0,
           BusEvent.request (onRegisters (fun _ => 0x06))._address 1 [0x06],
           BusEvent.transmission (onRegisters (fun _ => 0x06))._address
            [0x00, 0x06 &&& 0xFE] 0] :=
  ⟨rfl, rfl, by decide,
    (sleep_effect (onRegisters (fun _ => 0x06)) rfl 0x06 rfl (by decide)).1⟩

/-! ## Control register -/

set_option maxRecDepth 100000 in
/-- Replacing the top two bits of a byte: the result is a byte, keeps the low
six bits, and its top two bits are those of the new field alone. -/
theorem top_field_bits : ∀ c < 256, ∀ v < 4,
    ((c &&& 0x3F) ||| (v <<< 6)) % 256 = (c &&& 0x3F) ||| (v * 64) ∧
    (c &&& 0x3F) ||| (v * 64) < 256 ∧
    ((c &&& 0x3F) ||| (v * 64)) &&& 0x3F = c &&& 0x3F ∧
    ((c &&& 0x3F) ||| (v * 64)) &&& 0xC0 = v * 64 := by
  decide!

set_option maxRecDepth 100000 in
/-- Replacing the bottom two bits of a byte: the result is a byte, keeps the
top two bits, and its bottom two bits are the new field. -/
theorem bottom_field_bits : ∀ c < 256, ∀ g < 4,
    ((c &&& 0xFC) ||| g) % 256 = (c &&& 0xFC) ||| g ∧
    ((c &&& 0xFC) ||| g) &&& 0xC0 = c &&& 0xC0 ∧
    ((c &&& 0xFC) ||| g) &&& 0x03 = g := by
  decide!

@[simp] theorem setLedDriveStrength_port (self : APDS9900 σ) (v : Nat) :
    (self.setLedDriveStrength v).2._wire.port = self._wire.port := by
  simp only [setLedDriveStrength]
  split_ifs <;> simp

@[simp] theorem setProximityDiodeSelect_port (self : APDS9900 σ) (ch : Nat) :
    (self.setProximityDiodeSelect ch).2._wire.port = self._wire.port := by
  simp only [setProximityDiodeSelect]
  split_ifs <;> simp

/-- The bus traffic and the registers after `setLedDriveStrength v`. -/
theorem setLedDriveStrength_effect (self : APDS9900 RegisterFile)
    (h : self._wire.port = RegisterFile.port) (c v : Nat)
    (hc : self.registers APDS9900_CONTROL = c) (hc256 : c < 256) (hv : v ≤ 3) :
    (self.setLedDriveStrength v).2._wire.log
      = self._wire.log ++
          [BusEvent.transmission self._address [0x0F] 0,
           BusEvent.request self._address 1 [c],
           BusEvent.transmission self._address [0x0F, (c &&& 0x3F) ||| (v * 64)] 0] ∧
    (self.setLedDriveStrength v).2.registers
      = (fun r => if r = 0x0F then (c &&& 0x3F) ||| (v * 64) else self.registers r) := by
  obtain ⟨b1, b2, -, -⟩ := top_field_bits c hc256 v (by omega)
  have hgt : ¬ v > 3 := by omega
  have hc' : self.registers 15 = c := hc
  have hm : c % 256 = c := Nat.mod_eq_of_lt hc256
  have hm2 : ((c &&& 0x3F) ||| (v * 64)) % 256 = (c &&& 0x3F) ||| (v * 64) :=
    Nat.mod_eq_of_lt b2
  have hr : (self.readRegister APDS9900_CONTROL).1 = c := by
    rw [readRegister_value _ h]
    simp only [APDS9900_CONTROL, Nat.reduceMod, hc', hm]
  constructor
  · simp only [setLedDriveStrength, hgt, if_false, hr, b1]
    rw [writeRegister8_log_registerFile _ (by simpa using h), readRegister_log _ h]
    simp only [APDS9900_CONTROL, Nat.reduceMod, hc', hm, hm2, readRegister_address,
      List.append_assoc, List.cons_append, List.nil_append]
  · simp only [setLedDriveStrength, hgt, if_false, hr, b1]
    rw [writeRegister8_registers _ (by simpa using h), readRegister_registers _ h]
    simp only [APDS9900_CONTROL, Nat.reduceMod, hm2]

/-- The bus traffic and the registers after `setProximityDiodeSelect ch`. -/
theorem setProximityDiodeSelect_effect (self : APDS9900 RegisterFile)
    (h : self._wire.port = RegisterFile.port) (c ch : Nat)
    (hc : self.registers APDS9900_CONTROL = c) (hc256 : c < 256) (hch : ch ≤ 1) :
    (self.setProximityDiodeSelect ch).2._wire.log
      = self._wire.log ++
          [BusEvent.transmission self._address [0x0F] 0,
           BusEvent.request self._address 1 [c],
           BusEvent.transmission self._address [0x0F, (c &&& 0x3F) ||| (ch * 64)] 0] ∧
    (self.setProximityDiodeSelect ch).2.registers
      = (fun r => if r = 0x0F then (c &&& 0x3F) ||| (ch * 64) else self.registers r) := by
  obtain ⟨b1, b2, -, -⟩ := top_field_bits c hc256 ch (by omega)
  have hgt : ¬ ch > 1 := by omega
  have hc' : self.registers 15 = c := hc
  have hm : c % 256 = c := Nat.mod_eq_of_lt hc256
  have hm2 : ((c &&& 0x3F) ||| (ch * 64)) % 256 = (c &&& 0x3F) ||| (ch * 64) :=
    Nat.mod_eq_of_lt b2
  have hr : (self.readRegister APDS9900_CONTROL).1 = c := by
    rw [readRegister_value _ h]
    simp only [APDS9900_CONTROL, Nat.reduceMod, hc', hm]
  constructor
  · simp only [setProximityDiodeSelect, hgt, if_false, hr, b1]
    rw [writeRegister8_log_registerFile _ (by simpa using h), readRegister_log _ h]
    simp only [APDS9900_CONTROL, Nat.reduceMod, hc', hm, hm2, readRegister_address,
      List.append_assoc, List.cons_append, List.nil_append]
  · simp only [setProximityDiodeSelect, hgt, if_false, hr, b1]
    rw [writeRegister8_registers _ (by simpa using h), readRegister_registers _ h]
    simp only [APDS9900_CONTROL, Nat.reduceMod, hm2]

/-- The bus traffic and the registers after `setALSGainControl g`. -/
theorem setALSGainControl_effect (self : APDS9900 RegisterFile)
    (h : self._wire.port = RegisterFile.port) (c g : Nat)
    (hc : self.registers APDS9900_CONTROL = c) (hc256 : c < 256) (hg : g ≤ 3) :
    (self.setALSGainControl g).2._wire.log
      = self._wire.log ++
          [BusEvent.transmission self._address [0x0F] 0,
           BusEvent.request self._address 1 [c],
           BusEvent.transmission self._address [0x0F, (c &&& 0xFC) ||| g] 0] ∧
    (self.setALSGainControl g).2.registers
      = (fun r => if r = 0x0F then (c &&& 0xFC) ||| g else self.registers r) := by
  obtain ⟨b1, -, -⟩ := bottom_field_bits c hc256 g (by omega)
  have hgt : ¬ g > 3 := by omega
  have hc' : self.registers 15 = c := hc
  have hm : c % 256 = c := Nat.mod_eq_of_lt hc256
  have hr : (self.readRegister APDS9900_CONTROL).1 = c := by
    rw [readRegister_value _ h]
    simp only [APDS9900_CONTROL, Nat.reduceMod, hc', hm]
  constructor
  · simp only [setALSGainControl, hgt, if_false, hr]
    rw [writeRegister8_log_registerFile _ (by simpa using h), readRegister_log _ h]
    simp only [APDS9900_CONTROL, Nat.reduceMod, hc', hm, b1, readRegister_address,
      List.append_assoc, List.cons_append, List.nil_append]
  · simp only [setALSGainControl, hgt, if_false, hr]
    rw [writeRegister8_registers _ (by simpa using h), readRegister_registers _ h]
    simp only [APDS9900_CONTROL, Nat.reduceMod, b1]

/-- C13: on a simulated register file, for every control byte `c`,
`setLedDriveStrength v` (`v` in 0..3) writes `(c AND 0x3F) OR (v * 64)`,
`setProximityDiodeSelect ch` (`ch` in 0..1) writes `(c AND 0x3F) OR (ch * 64)`
and `setALSGainControl g` (`g` in 0..3) writes `(c AND 0xFC) OR g` to the
control register.  So the gain setter keeps the top two bits, the drive and
diode setters keep the low six bits, and of a drive-strength call and a
diode-select call the later one alone determines the top two bits. -/
theorem control_field_packing (self : APDS9900 RegisterFile)
    (h : self._wire.port = RegisterFile.port) (c v ch g : Nat)
    (hc : self.registers APDS9900_CONTROL = c) (hc256 : c < 256)
    (hv : v ≤ 3) (hch : ch ≤ 1) (hg : g ≤ 3) :
    (self.setLedDriveStrength v).2._wire.log
      = self._wire.log ++
          [BusEvent.transmission self._address [0x0F] 0,
           BusEvent.request self._address 1 [c],
           BusEvent.transmission self._address [0x0F, (c &&& 0x3F) ||| (v * 64)] 0] ∧
    (self.setProximityDiodeSelect ch).2._wire.log
      = self._wire.log ++
          [BusEvent.transmission self._address [0x0F] 0,
           BusEvent.request self._address 1 [c],
           BusEvent.transmission self._address [0x0F, (c &&& 0x3F) ||| (ch * 64)] 0] ∧
    (self.setALSGainControl g).2._wire.log
      = self._wire.log ++
          [BusEvent.transmission self._address [0x0F] 0,
           BusEvent.request self._address 1 [c],
           BusEvent.transmission self._address [0x0F, (c &&& 0xFC) ||| g] 0] ∧
    (self.setALSGainControl g).2.registers APDS9900_CONTROL &&& 0xC0 = c &&& 0xC0 ∧
    (self.setLedDriveStrength v).2.registers APDS9900_CONTROL &&& 0x3F = c &&& 0x3F ∧
    (self.setProximityDiodeSelect ch).2.registers APDS9900_CONTROL &&& 0x3F = c &&& 0x3F ∧
    ((self.setLedDriveStrength v).2.setProximityDiodeSelect ch).2.registers APDS9900_CONTROL
        &&& 0xC0 = ch * 64 ∧
    ((self.setProximityDiodeSelect ch).2.setLedDriveStrength v).2.registers APDS9900_CONTROL
        &&& 0xC0 = v * 64 := by
  have hL := setLedDriveStrength_effect self h c v hc hc256 hv
  have hD := setProximityDiodeSelect_effect self h c ch hc hc256 hch
  have hG := setALSGainControl_effect self h c g hc hc256 hg
  obtain ⟨-, v1, v2, -⟩ := top_field_bits c hc256 v (by omega)
  obtain ⟨-, d1, d2, -⟩ := top_field_bits c hc256 ch (by omega)
  obtain ⟨-, g2, -⟩ := bottom_field_bits c hc256 g (by omega)
  have hLc : (self.setLedDriveStrength v).2.registers APDS9900_CONTROL
      = (c &&& 0x3F) ||| (v * 64) := by
    rw [hL.2]
    simp [APDS9900_CONTROL]
  have hDc : (self.setProximityDiodeSelect ch).2.registers APDS9900_CONTROL
      = (c &&& 0x3F) ||| (ch * 64) := by
    rw [hD.2]
    simp [APDS9900_CONTROL]
  have hGc : (self.setALSGainControl g).2.registers APDS9900_CONTROL = (c &&& 0xFC) ||| g := by
    rw [hG.2]
    simp [APDS9900_CONTROL]
  have hLD := setProximityDiodeSelect_effect (self.setLedDriveStrength v).2 (by simpa using h)
    _ ch hLc v1 hch
  have hDL := setLedDriveStrength_effect (self.setProximityDiodeSelect ch).2 (by simpa using h)
    _ v hDc d1 hv
  refine ⟨hL.1, hD.1, hG.1, ?_, ?_, ?_, ?_, ?_⟩
  · rw [hGc]
    exact g2
  · rw [hLc]
    exact v2
  · rw [hDc]
    exact d2
  · rw [hLD.2]
    simp only [APDS9900_CONTROL, if_true]
    exact (top_field_bits _ v1 ch (by omega)).2.2.2
  · rw [hDL.2]
    simp only [APDS9900_CONTROL, if_true]
    exact (top_field_bits _ d1 v (by omega)).2.2.2

theorem control_field_packing_witness :
    ((onRegisters (fun _ => 0x25))._wire.port = RegisterFile.port ∧
      (onRegisters (fun _ => 0x25)).registers APDS9900_CONTROL = 0x25 ∧ 0x25 < 256 ∧
      3 ≤ 3 ∧ 1 ≤ 1 ∧ 2 ≤ 3) ∧
    (((onRegisters (fun _ => 0x25)).setLedDriveStrength 3).2.setProximityDiodeSelect 1).2.registers
        APDS9900_CONTROL &&& 0xC0 = 1 * 64 ∧
    (((onRegisters (fun _ => 0x25)).setProximityDiodeSelect 1).2.setLedDriveStrength 3).2.registers
        APDS9900_CONTROL &&& 0xC0 = 3 * 64 :=
  ⟨⟨rfl, rfl, by decide, by decide, by decide, by decide⟩,
    (control_field_packing (onRegisters (fun _ => 0x25)) rfl 0x25 3 1 2 rfl
      (by decide) (by decide) (by decide) (by decide)).2.2.2.2.2.2.1,
    (control_field_packing (onRegisters (fun _ => 0x25)) rfl 0x25 3 1 2 rfl
      (by decide) (by decide) (by decide) (by decide)).2.2.2.2.2.2.2⟩

/-! ## 16-bit registers -/

/-- What `readRegister16` returns when the bus delivers exactly two bytes. -/
theorem readRegister16_two_bytes (self : APDS9900 σ) (reg b0 b1 : Nat)
    (hreg : reg < 256) (hb0 : b0 < 256) (hb1 : b1 < 256)
    (hrecv :
      (self._wire.port.requestFrom
        (self._wire.port.endTransmission self._wire.peripheral self._address [reg]).2
        self._address 2).1 = [b0, b1]) :
    (self.readRegister16 reg).1 = b0 + 256 * b1 := by
  have hm : reg % 256 = reg := Nat.mod_eq_of_lt hreg
  have e0 : b0 % 256 = b0 := Nat.mod_eq_of_lt hb0
  have e1 : b1 % 256 = b1 := Nat.mod_eq_of_lt hb1
  simp [readRegister16, TwoWire.beginTransmission, TwoWire.write, TwoWire.endTransmission,
    TwoWire.requestFrom, TwoWire.read, hm, hrecv, e0, e1]
  omega

/-- The registers after `writeRegister16` on the register file: low byte at
`reg`, high byte at `reg + 1`. -/
theorem writeRegister16_registers (self : APDS9900 RegisterFile)
    (h : self._wire.port = RegisterFile.port) (reg value : Nat)
    (hreg : reg < 256) (hv : value < 65536) :
    (self.writeRegister16 reg value).2.registers
      = fun r => if r = reg + 1 then value / 256
                 else if r = reg then value % 256 else self.registers r := by
  have hm : reg % 256 = reg := Nat.mod_eq_of_lt hreg
  have e1 : value % 65536 = value := Nat.mod_eq_of_lt hv
  have e2 : value / 256 % 256 = value / 256 := by omega
  simp [writeRegister16, TwoWire.beginTransmission, TwoWire.write, TwoWire.endTransmission,
    h, RegisterFile.port, registers, RegisterFile.store, and_0xFF, shiftRight_8, hm, e1, e2]

@[simp] theorem writeRegister16_port (self : APDS9900 σ) (reg value : Nat) :
    (self.writeRegister16 reg value).2._wire.port = self._wire.port := rfl

/-- What `readRegister16` returns on the register file. -/
theorem readRegister16_value (self : APDS9900 RegisterFile)
    (h : self._wire.port = RegisterFile.port) (reg : Nat) (hreg : reg < 256) :
    (self.readRegister16 reg).1
      = self.registers reg % 256 + 256 * (self.registers (reg + 1) % 256) := by
  have hm : reg % 256 = reg := Nat.mod_eq_of_lt hreg
  simp [readRegister16, TwoWire.beginTransmission, TwoWire.write, TwoWire.endTransmission,
    TwoWire.requestFrom, TwoWire.read, h, RegisterFile.port, registers, RegisterFile.store,
    List.range_succ, hm]
  omega

/-- What `readRegister16` returns on any bus, by the bytes received: their
little-endian value when exactly two arrive, 0 otherwise. -/
theorem readRegister16_received (self : APDS9900 σ) (reg : Nat) :
    (self.readRegister16 reg).1
      = (match ((self._wire.port.requestFrom
            (self._wire.port.endTransmission self._wire.peripheral self._address
              [reg % 256]).2
            self._address 2).1.take 2).map (fun b => b % 256) with
         | [b0, b1] => b0 + 256 * b1
         | _ => 0) := by
  simp only [readRegister16, TwoWire.beginTransmission, TwoWire.write, TwoWire.endTransmission,
    TwoWire.requestFrom, TwoWire.read, List.nil_append]
  generalize ((self._wire.port.requestFrom
      (self._wire.port.endTransmission self._wire.peripheral self._address [reg % 256]).2
      self._address 2).1.take 2) = raw
  match raw with
  | [] => simp
  | [a] => simp
  | [a, b] =>
    simp only [List.map_cons, List.map_nil, List.length_cons, List.length_nil]
    simp only [Nat.reduceAdd, if_true]
    have hx : a % 256 < 256 := Nat.mod_lt _ (by norm_num)
    have hy : b % 256 < 256 := Nat.mod_lt _ (by norm_num)
    generalize a % 256 = x at hx ⊢
    generalize b % 256 = y at hy ⊢
    have e0 : ((x : Int) % 65536).toNat = x := by omega
    have e1 : (((x : Int) + (y : Int) * 256) % 65536).toNat = x + y * 256 := by omega
    rw [e0, e1, Nat.mul_comm]
  | a :: b :: c :: rest => simp

/-- C14: for every register `reg` and 16-bit value `v`, on any bus,
`writeRegister16 reg v` transmits the bytes `reg`, `v mod 256`, `v div 256`,
in that order, in one transaction; on any bus, `readRegister16` returns
`b0 + 256 * b1` when it receives exactly the two bytes `b0` then `b1` (and 0
when it receives any other number of bytes); and on every simulated register
file, reading back what `writeRegister16 reg v` stored yields `v`. -/
theorem register16_little_endian (self : APDS9900 σ) (reg v : Nat)
    (hreg : reg < 256) (hv : v < 65536) :
    (self.writeRegister16 reg v).2._wire.log
      = self._wire.log ++
          [BusEvent.transmission self._address [reg, v % 256, v / 256]
            (self.writeRegister16 reg v).1] ∧
    (self.readRegister16 reg).1
      = (match ((self._wire.port.requestFrom
            (self._wire.port.endTransmission self._wire.peripheral self._address [reg]).2
            self._address 2).1.take 2).map (fun b => b % 256) with
         | [b0, b1] => b0 + 256 * b1
         | _ => 0) ∧
    (∀ file : APDS9900 RegisterFile, file._wire.port = RegisterFile.port →
      ((file.writeRegister16 reg v).2.readRegister16 reg).1 = v) := by
  have hm : reg % 256 = reg := Nat.mod_eq_of_lt hreg
  refine ⟨?_, ?_, ?_⟩
  · rw [writeRegister16_log self reg v hv, hm]
  · have := readRegister16_received self reg
    rwa [hm] at this
  · intro file hfile
    rw [readRegister16_value _ (by simpa using hfile) reg hreg,
      writeRegister16_registers file hfile reg v hreg hv]
    have hne : reg ≠ reg + 1 := by omega
    simp only [hne, if_false, if_true]
    omega

theorem register16_little_endian_witness :
    (0x14 < 256 ∧ 0xBEEF < 65536) ∧
    (onShortReads.writeRegister16 0x14 0xBEEF).2._wire.log
      = onShortReads._wire.log ++
          [BusEvent.transmission onShortReads._address [0x14, 0xBEEF % 256, 0xBEEF / 256]
            (onShortReads.writeRegister16 0x14 0xBEEF).1] ∧
    (onShortReads.readRegister16 0x14).1 = 0 ∧
    ((onRegisters (fun r => r)).readRegister16 0x14).1 = 0x14 + 256 * 0x15 ∧
    (((onRegisters (fun r => r)).writeRegister16 0x14 0xBEEF).2.readRegister16 0x14).1
      = 0xBEEF :=
  ⟨⟨by decide, by decide⟩,
    (register16_little_endian onShortReads 0x14 0xBEEF (by decide) (by decide)).1,
    (register16_little_endian onShortReads 0x14 0xBEEF (by decide) (by decide)).2.1,
    (register16_little_endian (onRegisters (fun r => r)) 0x14 0xBEEF
      (by decide) (by decide)).2.1,
    (register16_little_endian onShortReads 0x14 0xBEEF (by decide) (by decide)).2.2
      (onRegisters (fun r => r)) rfl⟩

/-! ## Device address -/

theorem Follows.refl (s : APDS9900 σ) : Follows s s :=
  ⟨rfl, [], by simp, by simp⟩

theorem Follows.trans {s t u : APDS9900 σ} (h1 : Follows s t) (h2 : Follows t u) :
    Follows s u := by
  obtain ⟨a1, e1, l1, p1⟩ := h1
  obtain ⟨a2, e2, l2, p2⟩ := h2
  refine ⟨a2.trans a1, e1 ++ e2, ?_, ?_⟩
  · rw [l2, l1, List.append_assoc]
  · intro ev hev
    rcases List.mem_append.mp hev with hm | hm
    · exact p1 ev hm
    · rw [p2 ev hm, a1]

theorem follows_writeRegister (s : APDS9900 σ) (reg : Nat) : Follows s (s.writeRegister reg).2 :=
  ⟨rfl, [BusEvent.transmission s._address [reg % 256] (s.writeRegister reg).1],
    by simp [writeRegister, TwoWire.beginTransmission, TwoWire.write, TwoWire.endTransmission],
    by simp [BusEvent.address]⟩

theorem follows_writeRegister8 (s : APDS9900 σ) (reg value : Nat) :
    Follows s (s.writeRegister8 reg value).2 :=
  ⟨rfl, _, writeRegister8_log s reg value, by simp [BusEvent.address]⟩

theorem follows_writeRegister16 (s : APDS9900 σ) (reg value : Nat) :
    Follows s (s.writeRegister16 reg value).2 :=
  ⟨rfl, [BusEvent.transmission _ _ _], rfl,
    by simp [BusEvent.address, TwoWire.beginTransmission, TwoWire.write]⟩

theorem follows_isConnected (s : APDS9900 σ) : Follows s s.isConnected.2 :=
  ⟨rfl, [BusEvent.transmission _ _ _], rfl,
    by simp [BusEvent.address, TwoWire.beginTransmission]⟩

theorem TwoWire.read_log (w : TwoWire σ) : w.read.2.log = w.log := by
  unfold TwoWire.read
  split <;> rfl

/-- The two transactions of `readRegister`, on any bus. -/
theorem readRegister_log_any (s : APDS9900 σ) (reg : Nat) :
    (s.readRegister reg).2._wire.log
      = s._wire.log ++
          [BusEvent.transmission s._address [reg % 256]
            (s._wire.port.endTransmission s._wire.peripheral s._address [reg % 256]).1,
           BusEvent.request s._address 1
            (((s._wire.port.requestFrom
              (s._wire.port.endTransmission s._wire.peripheral s._address [reg % 256]).2
              s._address 1).1.take 1).map (fun b => b % 256))] := by
  simp only [readRegister]
  split_ifs <;>
    simp [TwoWire.read_log, TwoWire.beginTransmission, TwoWire.write, TwoWire.endTransmission,
      TwoWire.requestFrom]

/-- The two transactions of `readRegister16`, on any bus. -/
theorem readRegister16_log_any (s : APDS9900 σ) (reg : Nat) :
    (s.readRegister16 reg).2._wire.log
      = s._wire.log ++
          [BusEvent.transmission s._address [reg % 256]
            (s._wire.port.endTransmission s._wire.peripheral s._address [reg % 256]).1,
           BusEvent.request s._address 2
            (((s._wire.port.requestFrom
              (s._wire.port.endTransmission s._wire.peripheral s._address [reg % 256]).2
              s._address 2).1.take 2).map (fun b => b % 256))] := by
  simp only [readRegister16]
  split_ifs <;>
    simp [TwoWire.read_log, TwoWire.beginTransmission, TwoWire.write, TwoWire.endTransmission,
      TwoWire.requestFrom]

@[simp] theorem readRegister16_address (self : APDS9900 σ) (reg : Nat) :
    (self.readRegister16 reg).2._address = self._address := by
  simp only [readRegister16]
  split_ifs <;> rfl

theorem follows_readRegister (s : APDS9900 σ) (reg : Nat) : Follows s (s.readRegister reg).2 :=
  ⟨readRegister_address s reg, _, readRegister_log_any s reg, by simp [BusEvent.address]⟩

theorem follows_readRegister16 (s : APDS9900 σ) (reg : Nat) :
    Follows s (s.readRegister16 reg).2 :=
  ⟨readRegister16_address s reg, _, readRegister16_log_any s reg, by simp [BusEvent.address]⟩

theorem follows_read_write8 (s : APDS9900 σ) (reg reg2 value : Nat) :
    Follows s ((s.readRegister reg).2.writeRegister8 reg2 value).2 :=
  (follows_readRegister s reg).trans (follows_writeRegister8 _ reg2 value)

/-- Every public operation keeps the address and only adds transactions
directed to it. -/
theorem follows_step (s : APDS9900 σ) (op : Op) : Follows s (s.step op) := by
  cases op with
  | begin =>
    simp only [step, begin]
    split_ifs
    · exact follows_isConnected s
    · exact (follows_isConnected s).trans (follows_writeRegister _ _)
  | isConnected => exact follows_isConnected s
  | getAddress => exact Follows.refl s
  | wakeUp =>
    simp only [step, wakeUp]
    split_ifs
    · exact follows_read_write8 s _ _ _
    · exact follows_readRegister s _
  | sleep => exact follows_read_write8 s _ _ _
  | setIntegrationTime ms => exact follows_writeRegister8 s _ _
  | getIntegrationTime => exact follows_readRegister s _
  | setProximityTime ms => exact follows_writeRegister8 s _ _
  | getProximityTime => exact follows_readRegister s _
  | setWaitTime ms =>
    exact (follows_writeRegister8 s _ _).trans (follows_writeRegister8 _ _ _)
  | getWaitTime =>
    simp only [step, getWaitTime]
    split_ifs <;> exact (follows_readRegister s _).trans (follows_readRegister _ _)
  | setALSThresholds lo hi =>
    simp only [step, setALSThresholds]
    split_ifs
    · exact Follows.refl s
    · exact (follows_writeRegister16 s _ _).trans (follows_writeRegister16 _ _ _)
  | setPROXThresholds lo hi =>
    simp only [step, setPROXThresholds]
    split_ifs
    · exact Follows.refl s
    · exact (follows_writeRegister16 s _ _).trans (follows_writeRegister16 _ _ _)
  | setALSInterruptPersistence v =>
    simp only [step, setALSInterruptPersistence]
    split_ifs
    · exact Follows.refl s
    · exact follows_read_write8 s _ _ _
    · exact follows_readRegister s _
  | setPROXInterruptPersistence v =>
    simp only [step, setPROXInterruptPersistence]
    split_ifs
    · exact Follows.refl s
    · exact follows_read_write8 s _ _ _
    · exact follows_readRegister s _
  | setProximityPulseCount v => exact follows_writeRegister8 s _ _
  | setLedDriveStrength v =>
    simp only [step, setLedDriveStrength]
    split_ifs
    · exact Follows.refl s
    · exact follows_read_write8 s _ _ _
  | setProximityDiodeSelect ch =>
    simp only [step, setProximityDiodeSelect]
    split_ifs
    · exact Follows.refl s
    · exact follows_read_write8 s _ _ _
  | setALSGainControl v =>
    simp only [step, setALSGainControl]
    split_ifs
    · exact Follows.refl s
    · exact follows_read_write8 s _ _ _
  | getRevision => exact follows_readRegister s _
  | getDeviceID => exact follows_readRegister s _
  | getStatus => exact follows_readRegister s _
  | getALS_CDATA => exact follows_readRegister16 s _
  | getALS_IRDATA => exact follows_readRegister16 s _
  | getPROX_DATA => exact follows_readRegister16 s _
  | getLastError => exact ⟨rfl, [], by simp [step, getLastError], by simp⟩
  | writeRegister reg => exact follows_writeRegister s reg
  | writeRegister8 reg v => exact follows_writeRegister8 s reg v
  | writeRegister16 reg v => exact follows_writeRegister16 s reg v
  | readRegister reg => exact follows_readRegister s reg
  | readRegister16 reg => exact follows_readRegister16 s reg

/-- Every sequence of public operations keeps the address and only adds
transactions directed to it. -/
theorem follows_run (s : APDS9900 σ) (ops : List Op) : Follows s (s.run ops) := by
  induction ops generalizing s with
  | nil => exact Follows.refl s
  | cons op ops ih => exact (follows_step s op).trans (ih (s.step op))

/-- C15, at the failing input: a device constructed where the `_address` byte
holds 200.  The constructor assigns no address, so `getAddress` returns 200,
which is not a 7-bit address, and `begin` directs its transactions to 200. -/
theorem address_left_unassigned :
    (init (RegisterFile.bus (fun _ => 0)) 200).getAddress.1 = 200 ∧
    ¬ (init (RegisterFile.bus (fun _ => 0)) 200).getAddress.1 < 128 ∧
    (init (RegisterFile.bus (fun _ => 0)) 200).begin.2._wire.log
      = [BusEvent.transmission 200 [] 0, BusEvent.transmission 200 [0xA0] 0] := by
  decide

/-! ## Redundant persistence writes -/

/-- C16: on a simulated register file, for every persistence byte `p` and
`v` in 0..15, `setALSInterruptPersistence v` returns true and, after reading
the register, issues a write if and only if `p AND 0x0F` differs from `v`;
`setPROXInterruptPersistence v` returns true and issues a write if and only if
`p AND 0xF0` differs from `v * 16`; without a write the registers are
unchanged. -/
theorem persistence_skips_redundant_write (self : APDS9900 RegisterFile)
    (h : self._wire.port = RegisterFile.port) (p v : Nat)
    (hp : self.registers APDS9900_PERS = p) (hp256 : p < 256) (hv : v ≤ 15) :
    (self.setALSInterruptPersistence v).1 = true ∧
    (self.setALSInterruptPersistence v).2._wire.log
      = self._wire.log ++
          [BusEvent.transmission self._address [0x0C] 0,
           BusEvent.request self._address 1 [p]] ++
          (if p &&& 0x0F ≠ v then
            [BusEvent.transmission self._address [0x0C, (p &&& 0xF0) ||| v] 0]
           else []) ∧
    (self.setALSInterruptPersistence v).2.registers
      = (if p &&& 0x0F ≠ v then
          fun r => if r = 0x0C then (p &&& 0xF0) ||| v else self.registers r
         else self.registers) ∧
    (self.setPROXInterruptPersistence v).1 = true ∧
    (self.setPROXInterruptPersistence v).2._wire.log
      = self._wire.log ++
          [BusEvent.transmission self._address [0x0C] 0,
           BusEvent.request self._address 1 [p]] ++
          (if p &&& 0xF0 ≠ v * 16 then
            [BusEvent.transmission self._address [0x0C, (p &&& 0x0F) ||| (v * 16)] 0]
           else []) ∧
    (self.setPROXInterruptPersistence v).2.registers
      = (if p &&& 0xF0 ≠ v * 16 then
          fun r => if r = 0x0C then (p &&& 0x0F) ||| (v * 16) else self.registers r
         else self.registers) := by
  obtain ⟨a1, -, -⟩ := low_nibble_bits p hp256 v (by omega)
  obtain ⟨c0, c1, -, -⟩ := high_nibble_bits p hp256 v (by omega)
  have hgt : ¬ v > 0x0F := by omega
  have hp' : self.registers 12 = p := hp
  have hm : p % 256 = p := Nat.mod_eq_of_lt hp256
  have hr : (self.readRegister APDS9900_PERS).1 = p := by
    rw [readRegister_value _ h]
    simp only [APDS9900_PERS, Nat.reduceMod, hp', hm]
  have hport : (self.readRegister APDS9900_PERS).2._wire.port = RegisterFile.port := by
    simpa using h
  refine ⟨?_, ?_, ?_, ?_, ?_, ?_⟩
  · simp only [setALSInterruptPersistence, hgt, if_false]
    split_ifs <;> rfl
  · simp only [setALSInterruptPersistence, hgt, if_false, hr]
    by_cases hc : p &&& 0x0F = v
    · simp only [hc, ne_eq, not_true_eq_false, if_false, List.append_nil]
      rw [readRegister_log _ h]
      simp only [APDS9900_PERS, Nat.reduceMod, hp', hm]
    · simp only [hc, ne_eq, not_false_eq_true, if_true]
      rw [writeRegister8_log_registerFile _ hport, readRegister_log _ h]
      simp only [APDS9900_PERS, Nat.reduceMod, hp', hm, a1, readRegister_address]
  · simp only [setALSInterruptPersistence, hgt, if_false, hr]
    by_cases hc : p &&& 0x0F = v
    · simp only [hc, ne_eq, not_true_eq_false, if_false]
      exact readRegister_registers _ h _
    · simp only [hc, ne_eq, not_false_eq_true, if_true]
      rw [writeRegister8_registers _ hport, readRegister_registers _ h]
      simp only [APDS9900_PERS, Nat.reduceMod, a1]
  · simp only [setPROXInterruptPersistence, hgt, if_false]
    split_ifs <;> rfl
  · simp only [setPROXInterruptPersistence, hgt, if_false, hr, c0]
    by_cases hc : p &&& 0xF0 = v * 16
    · simp only [hc, ne_eq, not_true_eq_false, if_false, List.append_nil]
      rw [readRegister_log _ h]
      simp only [APDS9900_PERS, Nat.reduceMod, hp', hm]
    · simp only [hc, ne_eq, not_false_eq_true, if_true]
      rw [writeRegister8_log_registerFile _ hport, readRegister_log _ h]
      simp only [APDS9900_PERS, Nat.reduceMod, hp', hm, c1, readRegister_address]
  · simp only [setPROXInterruptPersistence, hgt, if_false, hr, c0]
    by_cases hc : p &&& 0xF0 = v * 16
    · simp only [hc, ne_eq, not_true_eq_false, if_false]
      exact readRegister_registers _ h _
    · simp only [hc, ne_eq, not_false_eq_true, if_true]
      rw [writeRegister8_registers _ hport, readRegister_registers _ h]
      simp only [APDS9900_PERS, Nat.reduceMod, c1]

theorem persistence_skips_redundant_write_witness :
    ((onRegisters (fun _ => 0x35))._wire.port = RegisterFile.port ∧
      (onRegisters (fun _ => 0x35)).registers APDS9900_PERS = 0x35 ∧ 0x35 < 256 ∧ 5 ≤ 15) ∧
    ((onRegisters (fun _ => 0x35)).setALSInterruptPersistence 5).2._wire.log
      = (onRegisters (fun _ => 0x35))._wire.log ++
          [BusEvent.transmission (onRegisters (fun _ => 0x35))._address [0x0C] 0,
           BusEvent.request (onRegisters (fun _ => 0x35))._address 1 [0x35]] ++
          (if 0x35 &&& 0x0F ≠ 5 then
            [BusEvent.transmission (onRegisters (fun _ => 0x35))._address
              [0x0C, (0x35 &&& 0xF0) ||| 5] 0]
           else []) :=
  ⟨⟨rfl, rfl, by decide, by decide⟩,
    (persistence_skips_redundant_write (onRegisters (fun _ => 0x35)) rfl 0x35 5 rfl
      (by decide) (by decide)).2.1⟩

/-! ## Recording the bus outcome -/

/-- C17: each write primitive returns the status the bus reports at the end
of its transmission and stores it as the last error, whatever was stored
before, so the next `getLastError` returns that status. -/
theorem write_primitives_record_status (self : APDS9900 σ) (reg value : Nat) :
    ((self.writeRegister reg).1
        = (self._wire.port.endTransmission self._wire.peripheral self._address
            [reg % 256]).1 ∧
      (self.writeRegister reg).2.getLastError.1 = (self.writeRegister reg).1) ∧
    ((self.writeRegister8 reg value).1
        = (self._wire.port.endTransmission self._wire.peripheral self._address
            [reg % 256, value % 256]).1 ∧
      (self.writeRegister8 reg value).2.getLastError.1 = (self.writeRegister8 reg value).1) ∧
    ((self.writeRegister16 reg value).1
        = (self._wire.port.endTransmission self._wire.peripheral self._address
            [reg % 256, ((value % 65536) &&& 0xFF) % 256, ((value % 65536) >>> 8) % 256]).1 ∧
      (self.writeRegister16 reg value).2.getLastError.1 = (self.writeRegister16 reg value).1) :=
  ⟨⟨rfl, rfl⟩, ⟨rfl, rfl⟩, ⟨rfl, rfl⟩⟩

/-! ## Decoded values as encoder inputs -/

set_option maxRecDepth 100000 in
/-- Encoding the decoded value of a timing byte gives the byte back. -/
theorem encode_decode_byte : ∀ r < 256, 1 ≤ r →
    3 ≤ ((256 - r) * 272 + 50) / 100 ∧
    ((256 - r) * 272 + 50) / 100 < 65536 ∧
    256 - (if (((256 - r) * 272 + 50) / 100 * 367647 + 500000) / 1000000 > 255 then 255
           else (((256 - r) * 272 + 50) / 100 * 367647 + 500000) / 1000000) = r := by
  decide!

/-- What `getIntegrationTime` returns on a register file. -/
theorem getIntegrationTime_value (self : APDS9900 RegisterFile)
    (h : self._wire.port = RegisterFile.port) :
    self.getIntegrationTime.1 = ((256 - self.registers 0x01 % 256) * 272 + 50) / 100 := by
  simp only [getIntegrationTime]
  rw [Arduino.round_milliseconds _ (readRegister_lt _ _).le, readRegister_value _ h]
  simp only [APDS9900_ATIME, Nat.reduceMod]
  have hv : self.registers 1 % 256 < 256 := Nat.mod_lt _ (by norm_num)
  generalize self.registers 1 % 256 = v at hv ⊢
  have e3 : ((256 - v) * 272 + 50) / 100 < 65536 := by omega
  generalize ((256 - v) * 272 + 50) / 100 = X at e3 ⊢
  omega

/-- What `getProximityTime` returns on a register file. -/
theorem getProximityTime_value (self : APDS9900 RegisterFile)
    (h : self._wire.port = RegisterFile.port) :
    self.getProximityTime.1 = ((256 - self.registers 0x02 % 256) * 272 + 50) / 100 := by
  simp only [getProximityTime]
  rw [Arduino.round_milliseconds _ (readRegister_lt _ _).le, readRegister_value _ h]
  simp only [APDS9900_PTIME, Nat.reduceMod]
  have hv : self.registers 2 % 256 < 256 := Nat.mod_lt _ (by norm_num)
  generalize self.registers 2 % 256 = v at hv ⊢
  have e3 : ((256 - v) * 272 + 50) / 100 < 65536 := by omega
  generalize ((256 - v) * 272 + 50) / 100 = X at e3 ⊢
  omega

@[simp] theorem getIntegrationTime_address (self : APDS9900 σ) :
    self.getIntegrationTime.2._address = self._address :=
  readRegister_address self _

@[simp] theorem getProximityTime_address (self : APDS9900 σ) :
    self.getProximityTime.2._address = self._address :=
  readRegister_address self _

/-- Reading the integration time and setting it again: the value read, the
single write that follows, and the registers afterwards.  Only the
integration-time register is constrained. -/
theorem getIntegrationTime_setIntegrationTime (self : APDS9900 RegisterFile)
    (h : self._wire.port = RegisterFile.port) (r : Nat) (hr1 : 1 ≤ r) (hr255 : r ≤ 255)
    (hA : self.registers APDS9900_ATIME = r) :
    (self.getIntegrationTime.1 : Int)
        = Arduino.round ((((256 : Int) - r : Int) : ℚ) * 2.72) ∧
    (∃ s, (self.getIntegrationTime.2.setIntegrationTime self.getIntegrationTime.1)._wire.log
      = self.getIntegrationTime.2._wire.log ++
          [BusEvent.transmission self._address [APDS9900_ATIME, r] s]) ∧
    (self.getIntegrationTime.2.setIntegrationTime self.getIntegrationTime.1).registers
      = self.registers := by
  obtain ⟨d3, d16, hfix⟩ := encode_decode_byte r (by omega) hr1
  have hm : r % 256 = r := Nat.mod_eq_of_lt (by omega)
  have hA' : self.registers 1 = r := hA
  have gA : self.getIntegrationTime.1 = ((256 - r) * 272 + 50) / 100 := by
    rw [getIntegrationTime_value self h, hA', hm]
  have hd : (if ((256 - r) * 272 + 50) / 100 < 3 then 3 else ((256 - r) * 272 + 50) / 100)
      = ((256 - r) * 272 + 50) / 100 := by
    rw [if_neg (by omega)]
  have pA : self.getIntegrationTime.2._wire.port = RegisterFile.port := by
    simpa [getIntegrationTime] using h
  have rA : self.getIntegrationTime.2.registers = self.registers :=
    readRegister_registers self h _
  refine ⟨?_, ?_, ?_⟩
  · rw [gA, Arduino.round_milliseconds r (by omega)]
  · obtain ⟨s, hs⟩ := setIntegrationTime_log self.getIntegrationTime.2 _ (gA ▸ d16)
    rw [gA] at hs ⊢
    rw [hd, hfix, getIntegrationTime_address] at hs
    exact ⟨s, hs⟩
  · simp only [setIntegrationTime]
    rw [gA, hd, timing_byte_eq _ d16, hfix, writeRegister8_registers _ pA, rA]
    funext x
    by_cases hx : x = 1
    · simp only [APDS9900_ATIME, Nat.reduceMod, hx, if_true, hA', hm]
    · simp only [APDS9900_ATIME, Nat.reduceMod, hx, if_false]

/-- Reading the proximity time and setting it again: the value read, the
single write that follows, and the registers afterwards.  Only the
proximity-time register is constrained. -/
theorem getProximityTime_setProximityTime (self : APDS9900 RegisterFile)
    (h : self._wire.port = RegisterFile.port) (r : Nat) (hr1 : 1 ≤ r) (hr255 : r ≤ 255)
    (hP : self.registers APDS9900_PTIME = r) :
    (self.getProximityTime.1 : Int)
        = Arduino.round ((((256 : Int) - r : Int) : ℚ) * 2.72) ∧
    (∃ s, (self.getProximityTime.2.setProximityTime self.getProximityTime.1)._wire.log
      = self.getProximityTime.2._wire.log ++
          [BusEvent.transmission self._address [APDS9900_PTIME, r] s]) ∧
    (self.getProximityTime.2.setProximityTime self.getProximityTime.1).registers
      = self.registers := by
  obtain ⟨d3, d16, hfix⟩ := encode_decode_byte r (by omega) hr1
  have hm : r % 256 = r := Nat.mod_eq_of_lt (by omega)
  have hP' : self.registers 2 = r := hP
  have gP : self.getProximityTime.1 = ((256 - r) * 272 + 50) / 100 := by
    rw [getProximityTime_value self h, hP', hm]
  have hd : (if ((256 - r) * 272 + 50) / 100 < 3 then 3 else ((256 - r) * 272 + 50) / 100)
      = ((256 - r) * 272 + 50) / 100 := by
    rw [if_neg (by omega)]
  have pP : self.getProximityTime.2._wire.port = RegisterFile.port := by
    simpa [getProximityTime] using h
  have rP : self.getProximityTime.2.registers = self.registers :=
    readRegister_registers self h _
  refine ⟨?_, ?_, ?_⟩
  · rw [gP, Arduino.round_milliseconds r (by omega)]
  · obtain ⟨s, hs⟩ := setProximityTime_log self.getProximityTime.2 _ (gP ▸ d16)
    rw [gP] at hs ⊢
    rw [hd, hfix, getProximityTime_address] at hs
    exact ⟨s, hs⟩
  · simp only [setProximityTime]
    rw [gP, hd, timing_byte_eq _ d16, hfix, writeRegister8_registers _ pP, rP]
    funext x
    by_cases hx : x = 2
    · simp only [APDS9900_PTIME, Nat.reduceMod, hx, if_true, hP', hm]
    · simp only [APDS9900_PTIME, Nat.reduceMod, hx, if_false]

/-- C18: on a simulated register file whose integration-time register holds a
byte `r` in 1..255 (every other register arbitrary), `getIntegrationTime`
returns `d = round((256 - r) * 2.72)`, and `setIntegrationTime d` then writes
exactly `r` to the integration-time register and leaves every register as it
was.  Likewise, on a register file whose proximity-time register holds a byte
`q` in 1..255 (every other register arbitrary), for `getProximityTime` /
`setProximityTime`.  The two devices, and the two bytes, are independent. -/
theorem decoded_time_is_fixed_point (self prox : APDS9900 RegisterFile) (r q : Nat)
    (h : self._wire.port = RegisterFile.port) (hr1 : 1 ≤ r) (hr255 : r ≤ 255)
    (hA : self.registers APDS9900_ATIME = r)
    (hp : prox._wire.port = RegisterFile.port) (hq1 : 1 ≤ q) (hq255 : q ≤ 255)
    (hP : prox.registers APDS9900_PTIME = q) :
    ((self.getIntegrationTime.1 : Int)
        = Arduino.round ((((256 : Int) - r : Int) : ℚ) * 2.72) ∧
      (∃ s, (self.getIntegrationTime.2.setIntegrationTime self.getIntegrationTime.1)._wire.log
        = self.getIntegrationTime.2._wire.log ++
            [BusEvent.transmission self._address [APDS9900_ATIME, r] s]) ∧
      (self.getIntegrationTime.2.setIntegrationTime self.getIntegrationTime.1).registers
        = self.registers) ∧
    ((prox.getProximityTime.1 : Int)
        = Arduino.round ((((256 : Int) - q : Int) : ℚ) * 2.72) ∧
      (∃ s, (prox.getProximityTime.2.setProximityTime prox.getProximityTime.1)._wire.log
        = prox.getProximityTime.2._wire.log ++
            [BusEvent.transmission prox._address [APDS9900_PTIME, q] s]) ∧
      (prox.getProximityTime.2.setProximityTime prox.getProximityTime.1).registers
        = prox.registers) :=
  ⟨getIntegrationTime_setIntegrationTime self h r hr1 hr255 hA,
    getProximityTime_setProximityTime prox hp q hq1 hq255 hP⟩

theorem decoded_time_is_fixed_point_witness :
    ((onRegisters (fun x => if x = 1 then 238 else 0))._wire.port = RegisterFile.port ∧
      1 ≤ 238 ∧ 238 ≤ 255 ∧
      (onRegisters (fun x => if x = 1 then 238 else 0)).registers APDS9900_ATIME = 238 ∧
      (onRegisters (fun x => if x = 1 then 238 else 0)).registers APDS9900_PTIME = 0 ∧
      (onRegisters (fun x => if x = 2 then 100 else 255))._wire.port = RegisterFile.port ∧
      1 ≤ 100 ∧ 100 ≤ 255 ∧
      (onRegisters (fun x => if x = 2 then 100 else 255)).registers APDS9900_PTIME = 100 ∧
      (onRegisters (fun x => if x = 2 then 100 else 255)).registers APDS9900_ATIME = 255) ∧
    (∃ s, ((onRegisters (fun x => if x = 1 then 238 else 0)).getIntegrationTime.2.setIntegrationTime
          (onRegisters (fun x => if x = 1 then 238 else 0)).getIntegrationTime.1)._wire.log
        = (onRegisters (fun x => if x = 1 then 238 else 0)).getIntegrationTime.2._wire.log ++
            [BusEvent.transmission (onRegisters (fun x => if x = 1 then 238 else 0))._address
              [APDS9900_ATIME, 238] s]) ∧
    (∃ s, ((onRegisters (fun x => if x = 2 then 100 else 255)).getProximityTime.2.setProximityTime
          (onRegisters (fun x => if x = 2 then 100 else 255)).getProximityTime.1)._wire.log
        = (onRegisters (fun x => if x = 2 then 100 else 255)).getProximityTime.2._wire.log ++
            [BusEvent.transmission (onRegisters (fun x => if x = 2 then 100 else 255))._address
              [APDS9900_PTIME, 100] s]) :=
  ⟨⟨rfl, by decide, by decide, rfl, rfl, rfl, by decide, by decide, rfl, rfl⟩,
    (decoded_time_is_fixed_point (onRegisters (fun x => if x = 1 then 238 else 0))
      (onRegisters (fun x => if x = 2 then 100 else 255)) 238 100
      rfl (by decide) (by decide) rfl rfl (by decide) (by decide) rfl).1.2.1,
    (decoded_time_is_fixed_point (onRegisters (fun x => if x = 1 then 238 else 0))
      (onRegisters (fun x => if x = 2 then 100 else 255)) 238 100
      rfl (by decide) (by decide) rfl rfl (by decide) (by decide) rfl).2.2.1⟩

/-! ## The timing byte stays in range -/

/-- The clamped step count of the 2.72 ms encoders lies in 1..255. -/
theorem steps_in_range (ms : Nat) :
    1 ≤ (if ((if ms < 3 then 3 else ms) * 367647 + 500000) / 1000000 > 255 then 255
         else ((if ms < 3 then 3 else ms) * 367647 + 500000) / 1000000) ∧
    (if ((if ms < 3 then 3 else ms) * 367647 + 500000) / 1000000 > 255 then 255
     else ((if ms < 3 then 3 else ms) * 367647 + 500000) / 1000000) ≤ 255 := by
  have h3 : 3 ≤ (if ms < 3 then 3 else ms) := by split_ifs <;> omega
  generalize (if ms < 3 then 3 else ms) = m at h3
  have hS : 1 ≤ (m * 367647 + 500000) / 1000000 := by omega
  generalize (m * 367647 + 500000) / 1000000 = S at hS ⊢
  split_ifs <;> omega

/-- C19: for every 16-bit `ms`, the clamped step count of `setIntegrationTime`,
`setProximityTime` and `setWaitTime` (either mode) lies in 1..255, and the
byte written to the timing register is `256 - steps`, in 1..255, never 0. -/
theorem timing_byte_never_wraps (self : APDS9900 σ) (ms : Nat) (hms : ms < 65536) :
    (∃ steps s, 1 ≤ steps ∧ steps ≤ 255 ∧
      steps = (if ((if ms < 3 then 3 else ms) * 367647 + 500000) / 1000000 > 255 then 255
               else ((if ms < 3 then 3 else ms) * 367647 + 500000) / 1000000) ∧
      (self.setIntegrationTime ms)._wire.log
        = self._wire.log ++
            [BusEvent.transmission self._address [APDS9900_ATIME, 256 - steps] s]) ∧
    (∃ steps s, 1 ≤ steps ∧ steps ≤ 255 ∧
      steps = (if ((if ms < 3 then 3 else ms) * 367647 + 500000) / 1000000 > 255 then 255
               else ((if ms < 3 then 3 else ms) * 367647 + 500000) / 1000000) ∧
      (self.setProximityTime ms)._wire.log
        = self._wire.log ++
            [BusEvent.transmission self._address [APDS9900_PTIME, 256 - steps] s]) ∧
    (∃ steps s₁ s₂, 1 ≤ steps ∧ steps ≤ 255 ∧
      steps = (if ms > 696 then (if (ms + 16) / 32 > 255 then 255 else (ms + 16) / 32)
               else (if ((if ms < 3 then 3 else ms) * 367647 + 500000) / 1000000 > 255 then 255
                     else ((if ms < 3 then 3 else ms) * 367647 + 500000) / 1000000)) ∧
      (self.setWaitTime ms)._wire.log
        = self._wire.log ++
            [BusEvent.transmission self._address
              [APDS9900_CONFIG, if ms > 696 then 0x02 else 0x00] s₁,
             BusEvent.transmission self._address [APDS9900_WTIME, 256 - steps] s₂]) := by
  obtain ⟨lo, hi⟩ := steps_in_range ms
  refine ⟨?_, ?_, ?_⟩
  · obtain ⟨s, hs⟩ := setIntegrationTime_log self ms hms
    exact ⟨_, s, lo, hi, rfl, hs⟩
  · obtain ⟨s, hs⟩ := setProximityTime_log self ms hms
    exact ⟨_, s, lo, hi, rfl, hs⟩
  · by_cases hW : ms > 696
    · obtain ⟨s₁, s₂, hs⟩ := setWaitTime_log_long self ms hW hms
      have hS : 1 ≤ (ms + 16) / 32 := by omega
      refine ⟨_, s₁, s₂, ?_, ?_, rfl, ?_⟩
      · rw [if_pos hW]
        split_ifs <;> omega
      · rw [if_pos hW]
        split_ifs <;> omega
      · rw [if_pos hW, if_pos hW]
        exact hs
    · obtain ⟨s₁, s₂, hs⟩ := setWaitTime_log_short self ms (by omega)
      refine ⟨_, s₁, s₂, ?_, ?_, rfl, ?_⟩
      · rw [if_neg hW]
        exact lo
      · rw [if_neg hW]
        exact hi
      · rw [if_neg hW, if_neg hW]
        exact hs

theorem timing_byte_never_wraps_witness :
    65535 < 65536 ∧
    ∃ steps s, 1 ≤ steps ∧ steps ≤ 255 ∧
      steps = (if ((if 65535 < 3 then 3 else 65535) * 367647 + 500000) / 1000000 > 255 then 255
               else ((if 65535 < 3 then 3 else 65535) * 367647 + 500000) / 1000000) ∧
      ((onRegisters (fun _ => 0)).setIntegrationTime 65535)._wire.log
        = (onRegisters (fun _ => 0))._wire.log ++
            [BusEvent.transmission (onRegisters (fun _ => 0))._address
              [APDS9900_ATIME, 256 - steps] s] :=
  ⟨by decide, (timing_byte_never_wraps (onRegisters (fun _ => 0)) 65535 (by decide)).1⟩

/-! ## The configuration register under setWaitTime -/

/-- C20: on a simulated register file, for every prior configuration byte and
every 16-bit `ms`, `setWaitTime ms` issues two transmissions and no read
request, and afterwards the configuration register holds exactly 0x02 when
`ms > 696` and 0x00 otherwise, whatever it held before. -/
theorem setWaitTime_overwrites_config (self : APDS9900 RegisterFile)
    (h : self._wire.port = RegisterFile.port) (ms : Nat) (hms : ms < 65536) :
    (∃ b s₁ s₂, (self.setWaitTime ms)._wire.log
      = self._wire.log ++
          [BusEvent.transmission self._address
            [APDS9900_CONFIG, if ms > 696 then 0x02 else 0x00] s₁,
           BusEvent.transmission self._address [APDS9900_WTIME, b] s₂]) ∧
    (self.setWaitTime ms).registers APDS9900_CONFIG = (if ms > 696 then 0x02 else 0x00) := by
  constructor
  · by_cases hW : ms > 696
    · obtain ⟨s₁, s₂, hs⟩ := setWaitTime_log_long self ms hW hms
      rw [if_pos hW]
      exact ⟨_, s₁, s₂, hs⟩
    · obtain ⟨s₁, s₂, hs⟩ := setWaitTime_log_short self ms (by omega)
      rw [if_neg hW]
      exact ⟨_, s₁, s₂, hs⟩
  · simp only [setWaitTime]
    rw [writeRegister8_registers _ (by simpa using h), writeRegister8_registers _ h]
    by_cases hW : ms > 696
    · simp [APDS9900_CONFIG, APDS9900_WTIME, hW]
    · simp [APDS9900_CONFIG, APDS9900_WTIME, hW]

theorem setWaitTime_overwrites_config_witness :
    ((onRegisters (fun _ => 0xFF))._wire.port = RegisterFile.port ∧ 50 < 65536) ∧
    ((onRegisters (fun _ => 0xFF)).registers APDS9900_CONFIG = 0xFF ∧
      ((onRegisters (fun _ => 0xFF)).setWaitTime 50).registers APDS9900_CONFIG
        = (if 50 > 696 then 0x02 else 0x00)) :=
  ⟨⟨rfl, by decide⟩, rfl,
    (setWaitTime_overwrites_config (onRegisters (fun _ => 0xFF)) rfl 50 (by decide)).2⟩

end APDS9900
